import Mathlib

/-!
Verification development for the racing telemetry engine
(`backend/racing_engine_gps_speed.py` and `backend/racing_api_server.py`).

Shallow embedding conventions:

* Python floats are modelled as exact rationals (`ℚ`).  `round(x, d)` is
  modelled as round-half-to-even at `d` decimal digits (`pyRound`), the
  idealisation of Python's float rounding.
* The transcendental numeric primitives (haversine distance, bearing,
  Savitzky–Golay smoothing, square root inside `np.std`) are parameters of
  the embedding, collected in `GeoPrims`; no claim depends on their values,
  only on how the engine's control flow uses them.  Concrete instantiations
  used in witnesses pick simple computable functions.
* Python dicts keyed by sector id / corner ordinal are modelled as
  association lists (`List (ℕ × α)`) with first-match lookup; insertion
  preserves position and new keys are appended, matching CPython dict
  order.  The `f"corner_{idx}"` string keys are modelled by the ordinal
  `idx` itself (the mapping is bijective).
* Paths that raise Python exceptions are modelled with `Except String`.
* Human-readable message strings built by f-string number formatting
  (strategy messages, recommendations of `optimize_brake_points`) are
  presentational and are omitted from the records; every numeric and
  enumeration field that the engine itself reads back is kept.
* Wall-clock fields (`lap_info['timestamp']`, session metadata) and the
  pickle-based session store are I/O and are not part of the embedding.
-/

namespace Racing

/-- A telemetry sample `{timestamp, lat, lon, speed}` as ingested by the
engine (all Python floats, modelled as `ℚ`). -/
structure Sample where
  timestamp : ℚ
  lat : ℚ
  lon : ℚ
  speed : ℚ
  deriving DecidableEq, Inhabited

/-- Numeric primitives of the source that are transcendental over `ℚ`:
`haversine_distance` (lat1 lon1 lat2 lon2, meters), `savgol_filter` with
window `min(11, len)` and polyorder 2 (length preserving in scipy), and the
square root used by `np.std`.  They are parameters of the embedding. -/
structure GeoPrims where
  haversine : ℚ → ℚ → ℚ → ℚ → ℚ
  savgol : List ℚ → List ℚ
  sqrtQ : ℚ → ℚ

/-- Round-half-to-even of a rational to an integer (the idealisation of
Python's `round` on floats). -/
def pyRoundInt (q : ℚ) : ℤ :=
  let f := ⌊q⌋
  let r := q - f
  if r < 1/2 then f
  else if 1/2 < r then f + 1
  else if 2 ∣ f then f else f + 1

/-- Python `round(q, d)`: round-half-to-even at `d` decimal digits. -/
def pyRound (d : ℕ) (q : ℚ) : ℚ := (pyRoundInt (q * 10 ^ d) : ℚ) / 10 ^ d

/-- Python `int(q)` on a float: truncation toward zero. -/
def pyInt (q : ℚ) : ℤ := if 0 ≤ q then ⌊q⌋ else ⌈q⌉

/-- Mean of a list of rationals (`np.mean`); `0` on the empty list
(unreachable: every call site guards non-emptiness). -/
def meanQ (l : List ℚ) : ℚ := l.sum / l.length

/-- Python `max` over a non-empty list of numbers; `0` on the empty list
(where Python would raise, unreachable at the call sites). -/
def listMaxQ : List ℚ → ℚ
  | [] => 0
  | a :: t => t.foldl max a

/-- Python `min` over a non-empty list of numbers; `0` on the empty list. -/
def listMinQ : List ℚ → ℚ
  | [] => 0
  | a :: t => t.foldl min a

/-- Python `max(l, key=f)`: the first element attaining the maximal key
(`none` on the empty list, where Python raises). -/
def maxByFirst (f : α → ℚ) : List α → Option α
  | [] => none
  | a :: t => some (t.foldl (fun best x => if f best < f x then x else best) a)

/-- Python `min(l, key=f)`: the first element attaining the minimal key. -/
def minByFirst (f : α → ℚ) : List α → Option α
  | [] => none
  | a :: t => some (t.foldl (fun best x => if f x < f best then x else best) a)

/-- First-match lookup in an association list (CPython dict read). -/
def dictGet (d : List (ℕ × α)) (k : ℕ) : Option α :=
  (d.find? (fun p => p.1 == k)).map (fun p => p.2)

/-- Dict write `d[k] = v`: replaces the value in place when the key is
present, otherwise appends the new key (CPython dict insertion order). -/
def dictSet (d : List (ℕ × α)) (k : ℕ) (v : α) : List (ℕ × α) :=
  if (d.find? (fun p => p.1 == k)).isSome then
    d.map (fun p => if p.1 == k then (k, v) else p)
  else d ++ [(k, v)]

/-- Keys of a list in first-occurrence order: the iteration order of a
CPython dict built by grouping. -/
def firstOccs (l : List ℕ) : List ℕ :=
  l.foldl (fun acc s => if s ∈ acc then acc else acc ++ [s]) []

/-- Filter a list by a predicate on positions, the position of the first
element being `start` (models a Python loop appending `l[i]` when `p i`). -/
def filterByIdx (p : ℕ → Bool) : ℕ → List α → List α
  | _, [] => []
  | i, a :: l => if p i then a :: filterByIdx p (i + 1) l else filterByIdx p (i + 1) l

/-- Least-squares slope of `ys` against `xs` (`np.polyfit(xs, ys, 1)[0]`),
in closed form; the degenerate denominator (all `xs` equal, where numpy
solves a singular system) yields `0` by rational division and is
unreachable: the engine always passes distinct lap numbers. -/
def polyfitSlope (xs ys : List ℚ) : ℚ :=
  let n : ℚ := xs.length
  let sx := xs.sum
  let sy := ys.sum
  let sxy := (xs.zip ys).map (fun p => p.1 * p.2) |>.sum
  let sxx := (xs.map (fun x => x * x)).sum
  (n * sxy - sx * sy) / (n * sxx - sx * sx)

/-- Population standard deviation `np.std` (ddof 0), via the square-root
primitive. -/
def stdQ (P : GeoPrims) (l : List ℚ) : ℚ :=
  P.sqrtQ (meanQ (l.map (fun x => (x - meanQ l) * (x - meanQ l))))

/-- A corner event emitted by `detect_corners_advanced`. -/
structure Corner where
  index : ℕ
  lat : ℚ
  lon : ℚ
  entry_speed : ℚ
  apex_speed : ℚ
  exit_speed : ℚ
  speed_loss : ℚ
  severity : ℚ
  exit_acceleration : ℚ
  type : String
  deriving DecidableEq, Inhabited

/-- A per-lap record stored in `corner_data[corner_id]` by
`analyze_corner_performance`. -/
structure CornerHistEntry where
  lap : ℕ
  performance_score : ℚ
  entry_speed : ℚ
  apex_speed : ℚ
  exit_speed : ℚ
  location : ℚ × ℚ
  deriving DecidableEq, Inhabited

/-- An improvement-opportunity record emitted by
`analyze_corner_performance`. -/
structure CornerAnalysis where
  corner_id : ℕ
  corner_number : ℕ
  improvement_potential : ℚ
  current_exit : ℚ
  best_exit : ℚ
  recommendation : String
  location : ℚ × ℚ
  deriving DecidableEq, Inhabited

/-- A braking event emitted by `detect_brake_zones`. -/
structure BrakeZone where
  index : ℕ
  lat : ℚ
  lon : ℚ
  speed_before : ℚ
  speed_after : ℚ
  deceleration_rate : ℚ
  brake_intensity : String
  deriving DecidableEq, Inhabited

/-- An acceleration event emitted by `detect_acceleration_zones`. -/
structure AccelZone where
  index : ℕ
  lat : ℚ
  lon : ℚ
  speed_before : ℚ
  speed_after : ℚ
  acceleration_rate : ℚ
  zone_type : String
  deriving DecidableEq, Inhabited

/-- A brake-point comparison record of `optimize_brake_points`
(the formatted recommendation text is presentational and omitted). -/
structure BrakeOpt where
  location : ℚ × ℚ
  current_entry : ℚ
  optimal_entry : ℚ
  brake_earlier : Bool
  time_gain_potential : ℚ
  deriving DecidableEq, Inhabited

/-- A tire status record.  The `NEW_TIRES` sentinel returned for fewer than
3 completed laps carries no `lap` and no `speed_loss_percent` key, hence
the `Option` fields. -/
structure TireStatus where
  lap : Option ℕ
  grip_level : ℚ
  degradation_rate : ℚ
  speed_loss_percent : Option ℚ
  laps_remaining : ℤ
  pit_recommended : Bool
  status : String
  deriving DecidableEq, Inhabited

/-- A driver performance snapshot appended to
`driver_performance_metrics`. -/
structure Perf where
  lap : ℕ
  overall_score : ℚ
  speed_score : ℚ
  consistency_score : ℚ
  smoothness_score : ℚ
  rating : String
  trend : String
  deriving DecidableEq, Inhabited

/-- Result of `calculate_driver_performance`: with fewer than 2 completed
laps the source returns the constant dict
`{overall_score 75, rating B, status INSUFFICIENT_DATA}`, modelled by the
`insufficient` constructor. -/
inductive PerfResult where
  | insufficient
  | full (p : Perf)
  deriving DecidableEq, Inhabited

/-- An overtaking zone; `avg_speed` is set for `HIGH_SPEED_STRAIGHT` zones
and `exit_speed` for `CORNER_EXIT` zones (the recommendation text is
presentational and omitted). -/
structure OvertakingZone where
  index : ℕ
  lat : ℚ
  lon : ℚ
  type : String
  avg_speed : Option ℚ
  exit_speed : Option ℚ
  confidence : ℚ
  deriving DecidableEq, Inhabited

/-- Per-sector summary stored under `sectors[sector_id]` of a lap. -/
structure SectorData where
  time : ℚ
  data : List Sample
  avg_speed : ℚ
  max_speed : ℚ
  min_speed : ℚ
  deriving DecidableEq, Inhabited

/-- An entry of `optimal_lap[sector_id]`. -/
structure OptimalEntry where
  time : ℚ
  data : List Sample
  lap_number : ℕ
  avg_speed : ℚ
  max_speed : ℚ
  deriving DecidableEq, Inhabited

/-- A strategy advisory record (category, icon and machine-readable action;
the formatted message and expected-gain strings are presentational and
omitted). -/
structure StrategyItem where
  category : String
  icon : String
  action : String
  deriving DecidableEq, Inhabited

/-- A full strategy record appended to `race_strategy_log`. -/
structure Strategy where
  lap : ℕ
  laps_remaining : ℤ
  race_progress : ℚ
  race_phase : String
  strategy_mode : String
  recommendations : List StrategyItem
  priority_action : Option StrategyItem
  deriving DecidableEq, Inhabited

/-- Result of `generate_race_strategy`: with no completed lap or
`lap_number < 2`, the source returns the constant
`INSUFFICIENT_DATA` dict (empty recommendations, race_phase `EARLY`,
strategy_mode `SETTLE_IN`), modelled by `insufficient`. -/
inductive StrategyResult where
  | insufficient
  | full (s : Strategy)
  deriving DecidableEq, Inhabited

/-- A completed-lap record (`lap_info` in `process_lap`).  The wall-clock
`timestamp` key is informational only and omitted; `performance` is absent
(`none`) on the first completed lap. -/
structure LapInfo where
  lap_number : ℕ
  total_time : ℚ
  avg_speed : ℚ
  max_speed : ℚ
  sectors : List (ℕ × SectorData)
  corners : List Corner
  corner_analysis : List CornerAnalysis
  brake_zones : List BrakeZone
  accel_zones : List AccelZone
  brake_optimization : List BrakeOpt
  tire_status : TireStatus
  overtaking_zones : List OvertakingZone
  performance : Option PerfResult
  deriving DecidableEq, Inhabited

/-- Mutable state of `ProfessionalRacingEngine`.  The constructor fields
that the source never reads back (`sector_definitions`, `sectors_data`,
`acceleration_zones`, `consistency_analysis`, `track_evolution`) and the
wall-clock session metadata are omitted. -/
structure Engine where
  optimal_lap : List (ℕ × OptimalEntry) := []
  lap_history : List LapInfo := []
  current_lap_data : List Sample := []
  sector_boundaries : List ℕ := []
  corner_data : List (ℕ × List CornerHistEntry) := []
  brake_zones : List BrakeZone := []
  tire_degradation_history : List TireStatus := []
  driver_performance_metrics : List Perf := []
  race_strategy_log : List Strategy := []
  overtaking_opportunities : List OvertakingZone := []
  deriving DecidableEq, Inhabited

/-- A fresh `ProfessionalRacingEngine()`. -/
def emptyEngine : Engine := {}

/-- Mutable state of the `RacingTelemetryAPI` wrapper. -/
structure ApiState where
  engine : Engine := emptyEngine
  current_lap_buffer : List Sample := []
  lap_start_time : Option ℚ := none
  race_total_laps : ℕ := 20
  deriving DecidableEq, Inhabited

/-- A fresh `RacingTelemetryAPI(race_total_laps=20)`. -/
def initialApiState : ApiState := {}

/-- Helper for `identify_sector`: scan `boundaries[1:]` with a running
index, returning the index of the first boundary strictly greater than the
queried position, and the default (`len(boundaries) - 2`) when the scan
falls through. -/
def identifySectorAux (i : ℕ) (dflt : ℕ) : List ℕ → ℕ → ℕ
  | [], _ => dflt
  | b :: rest, k => if i < b then k else identifySectorAux i dflt rest (k + 1)

/-- `identify_sector(current_index)`: `0` when no boundaries exist,
else the first `k` with `current_index < boundaries[k+1]`, falling back to
`len(boundaries) - 2`.  (Python's fallback can be `-1` only when a loaded
session leaves a single boundary, which the engine itself never produces;
`ℕ` truncation gives `0` there.) -/
def identifySector (bnds : List ℕ) (i : ℕ) : ℕ :=
  if bnds.isEmpty then 0
  else identifySectorAux i (bnds.length - 2) (bnds.drop 1) 0

/-- Consecutive haversine distances of a GPS point list (the `distances`
list of `auto_detect_sectors`). -/
def pairDists (P : GeoPrims) : List (ℚ × ℚ) → List ℚ
  | [] => []
  | [_] => []
  | a :: b :: rest => P.haversine a.1 a.2 b.1 b.2 :: pairDists P (b :: rest)

/-- The accumulation loop of `auto_detect_sectors`: walk the distance list
with its running index and cumulative sum, appending the current index to
`boundaries` whenever the cumulative distance reaches
`sector_length * len(boundaries)` and fewer than `num_sectors` entries
exist. -/
def detectLoop (sectorLen : ℚ) (numSectors : ℕ) :
    List ℚ → ℕ → ℚ → List ℕ → List ℕ
  | [], _, _, bs => bs
  | d :: rest, i, cum, bs =>
    let cum' := cum + d
    if sectorLen * bs.length ≤ cum' ∧ bs.length < numSectors then
      detectLoop sectorLen numSectors rest (i + 1) cum' (bs ++ [i])
    else
      detectLoop sectorLen numSectors rest (i + 1) cum' bs

/-- `auto_detect_sectors(gps_points, num_sectors=3)`: `none` (and no state
change at the caller) when fewer than `num_sectors * 10` points exist,
otherwise `[0] ++ interior ++ [len(gps_points) - 1]` via `detectLoop`. -/
def autoDetectSectors (P : GeoPrims) (gps : List (ℚ × ℚ)) (numSectors : ℕ := 3) :
    Option (List ℕ) :=
  if gps.length < numSectors * 10 then none
  else
    let distances := pairDists P gps
    let total := distances.sum
    let sectorLen := total / numSectors
    some (detectLoop sectorLen numSectors distances 0 0 [0] ++ [gps.length - 1])

/-- `_classify_corner(severity, apex_speed)`. -/
def classifyCorner (severity apex_speed : ℚ) : String :=
  if 1/2 < severity then "HAIRPIN"
  else if 3/10 < severity then "SLOW"
  else if 35 < apex_speed then "FAST"
  else "MEDIUM"

/-- List read with default `0` (used for the positional accesses of the
Python loops; all such accesses are in range at the call sites). -/
def getQ (l : List ℚ) (i : ℕ) : ℚ := l.getD i 0

/-- `detect_corners_advanced(lap_data)`.  The smoothed speed series is the
`savgol` primitive for more than 10 samples, else the raw series; the
`bearings` list of the source is computed but never read and is omitted.
For each `i` in `[5, len - 5)` with a local smoothed-speed minimum under
40 km/h, a corner record is emitted. -/
def detectCorners (P : GeoPrims) (lap_data : List Sample) : List Corner :=
  let speeds := lap_data.map (fun p => p.speed)
  let sm := if 10 < speeds.length then P.savgol speeds else speeds
  (List.range sm.length).filterMap (fun i =>
    if 5 ≤ i ∧ i + 5 < sm.length then
      if getQ sm i < getQ sm (i - 3) ∧ getQ sm i < getQ sm (i + 3) ∧ getQ sm i < 40 then
        let entry := getQ sm (i - 5)
        let apex := getQ sm i
        let ex := getQ sm (i + 5)
        let speed_loss := entry - apex
        let severity := if 0 < entry then speed_loss / entry else 0
        let pt := lap_data.getD i default
        some { index := i, lat := pt.lat, lon := pt.lon,
               entry_speed := pyRound 1 entry, apex_speed := pyRound 1 apex,
               exit_speed := pyRound 1 ex, speed_loss := pyRound 1 speed_loss,
               severity := pyRound 1 (severity * 100),
               exit_acceleration := pyRound 1 (ex - apex),
               type := classifyCorner severity apex }
      else none
    else none)

/-- `_get_corner_recommendation(current_corner, historical_data)`:
coaching text derived from entry/exit speed deltas against the historical
entry with the best exit speed. -/
def getCornerRecommendation (c : Corner) (hist : List CornerHistEntry) : String :=
  match maxByFirst (fun h => h.exit_speed) hist with
  | none => "✅ Good corner execution"
  | some best =>
    let entry_diff := c.entry_speed - best.entry_speed
    let exit_diff := c.exit_speed - best.exit_speed
    if entry_diff < -3 then "⚠️ Entry too slow - brake later"
    else if exit_diff < -2 then "💡 Exit too slow - earlier throttle application"
    else if 3 < entry_diff then "⚠️ Entry too fast - brake earlier for better exit"
    else "✅ Good corner execution"

/-- One step of `analyze_corner_performance` for the `idx`-th corner:
append this lap's record to `corner_data[idx]`, then, when history for the
ordinal exists beyond this lap, compare the current performance score to
the best ever and emit an improvement record above the 10 % threshold. -/
def analyzeCornerStep (eng : Engine) (lap_number : ℕ) (idx : ℕ) (c : Corner) :
    Option CornerAnalysis × Engine :=
  let score := c.exit_acceleration * 2 - c.speed_loss
  let hist := (dictGet eng.corner_data idx).getD []
  let hist' := hist ++ [{ lap := lap_number, performance_score := score,
                          entry_speed := c.entry_speed, apex_speed := c.apex_speed,
                          exit_speed := c.exit_speed, location := (c.lat, c.lon) }]
  let eng' := { eng with corner_data := dictSet eng.corner_data idx hist' }
  if 1 < hist'.length then
    let best := listMaxQ (hist'.map (fun h => h.performance_score))
    let improvement := if best ≠ 0 then (best - score) / |best| * 100 else 0
    if 10 < improvement then
      (some { corner_id := idx, corner_number := idx + 1,
              improvement_potential := pyRound 1 improvement,
              current_exit := c.exit_speed,
              best_exit := listMaxQ (hist'.map (fun h => h.exit_speed)),
              recommendation := getCornerRecommendation c hist',
              location := (c.lat, c.lon) }, eng')
    else (none, eng')
  else (none, eng')

/-- `analyze_corner_performance(corners, lap_number)`: fold
`analyzeCornerStep` over the corners in ordinal order, collecting the
emitted improvement records. -/
def analyzeCornerPerformance (eng : Engine) (corners : List Corner) (lap_number : ℕ) :
    List CornerAnalysis × Engine :=
  corners.foldl (fun (acc : List CornerAnalysis × Engine × ℕ) c =>
      let r := analyzeCornerStep acc.2.1 lap_number acc.2.2 c
      (acc.1 ++ r.1.toList, r.2, acc.2.2 + 1)) ([], eng, 0)
    |> fun acc => (acc.1, acc.2.1)

/-- `detect_brake_zones(lap_data)`: for `i` in `[1, len - 1)`, emit a brake
event when the speed drop from `i-1` to `i` exceeds 3 km/h. -/
def detectBrakeZones (lap_data : List Sample) : List BrakeZone :=
  let speeds := lap_data.map (fun p => p.speed)
  (List.range speeds.length).filterMap (fun i =>
    if 1 ≤ i ∧ i + 1 < speeds.length then
      let dec := getQ speeds (i - 1) - getQ speeds i
      if 3 < dec then
        let pt := lap_data.getD i default
        some { index := i, lat := pt.lat, lon := pt.lon,
               speed_before := getQ speeds (i - 1), speed_after := getQ speeds i,
               deceleration_rate := pyRound 2 dec,
               brake_intensity := if 10 < dec then "HARD" else "MODERATE" }
      else none
    else none)

/-- `detect_acceleration_zones(lap_data)`: for `i` in `[1, len - 1)`, emit
an acceleration event when the speed gain from `i-1` to `i` exceeds
2 km/h. -/
def detectAccelZones (lap_data : List Sample) : List AccelZone :=
  let speeds := lap_data.map (fun p => p.speed)
  (List.range speeds.length).filterMap (fun i =>
    if 1 ≤ i ∧ i + 1 < speeds.length then
      let acc := getQ speeds i - getQ speeds (i - 1)
      if 2 < acc then
        let pt := lap_data.getD i default
        some { index := i, lat := pt.lat, lon := pt.lon,
               speed_before := getQ speeds (i - 1), speed_after := getQ speeds i,
               acceleration_rate := pyRound 2 acc,
               zone_type := if getQ speeds (i - 1) < 30 then "CORNER_EXIT" else "STRAIGHT" }
      else none
    else none)

/-- `optimize_brake_points(current_brake_zones)`: empty when no historical
brake zones exist; else, for every (current, historical) pair closer than
10 m whose entry speeds differ by more than 2 km/h, emit a comparison
record. -/
def optimizeBrakePoints (P : GeoPrims) (eng : Engine) (cur : List BrakeZone) :
    List BrakeOpt :=
  if eng.brake_zones = [] then []
  else
    cur.flatMap (fun cbz =>
      eng.brake_zones.filterMap (fun obz =>
        let distance := P.haversine cbz.lat cbz.lon obz.lat obz.lon
        if distance < 10 then
          let speed_diff := obz.speed_before - cbz.speed_before
          if 2 < |speed_diff| then
            some { location := (cbz.lat, cbz.lon), current_entry := cbz.speed_before,
                   optimal_entry := obz.speed_before,
                   brake_earlier := if 0 < speed_diff then true else false,
                   time_gain_potential := |speed_diff| * (5/100) }
          else none
        else none))

/-- `_get_tire_status(grip)`: condition band of a grip level. -/
def tireStatusBand (grip : ℚ) : String :=
  if 95 ≤ grip then "EXCELLENT"
  else if 85 ≤ grip then "GOOD"
  else if 75 ≤ grip then "FAIR"
  else if 65 ≤ grip then "WORN"
  else "CRITICAL"

/-- The `NEW_TIRES` sentinel returned by `predict_tire_degradation` when
fewer than 3 laps are in history (no `lap`, no `speed_loss_percent`). -/
def newTiresSentinel : TireStatus :=
  { lap := none, grip_level := 100, degradation_rate := 0,
    speed_loss_percent := none, laps_remaining := 999,
    pit_recommended := false, status := "NEW_TIRES" }

/-- The `lap_history[-min(10, len):]` window used by the tire model and the
performance scorer. -/
def recentLaps (eng : Engine) : List LapInfo :=
  eng.lap_history.drop (eng.lap_history.length - min 10 eng.lap_history.length)

/-- Degradation rate `abs(np.polyfit(lap_numbers, avg_speeds, 1)[0])` over
the recent window (the `len < 3` fallback 0 of the source is dead given the
outer guard and is kept for fidelity). -/
def tireDegradationRate (eng : Engine) : ℚ :=
  let recent := recentLaps eng
  let avg_speeds := recent.map (fun l => l.avg_speed)
  if 3 ≤ avg_speeds.length then
    |polyfitSlope (recent.map (fun l => (l.lap_number : ℚ))) avg_speeds|
  else 0

/-- `initial_speed`: average speed of the first lap of the recent window. -/
def tireInitialSpeed (eng : Engine) : ℚ :=
  ((recentLaps eng).map (fun l => l.avg_speed)).headI

/-- `speed_loss_percent` of the tire model (not clamped in the source). -/
def tireSpeedLossPercent (eng : Engine) (current : ℚ) : ℚ :=
  let initial := tireInitialSpeed eng
  if 0 < initial then (initial - current) / initial * 100 else 0

/-- Unrounded `grip_level = max(0, 100 - speed_loss_percent)`. -/
def tireGripRaw (eng : Engine) (current : ℚ) : ℚ :=
  max 0 (100 - tireSpeedLossPercent eng current)

/-- `laps_remaining` of the tire model: laps to the critical speed
(93 % of the initial window speed) at the regressed rate, else the
sentinel 999. -/
def tireLapsRemaining (eng : Engine) (current : ℚ) : ℤ :=
  let initial := tireInitialSpeed eng
  let critical := initial * (93/100)
  let rate := tireDegradationRate eng
  if 1/100 < rate ∧ critical < current then pyInt ((current - critical) / rate)
  else 999

/-- `predict_tire_degradation(lap_number, current_lap_avg_speed)`: the
`NEW_TIRES` sentinel (no history append) below 3 completed laps; otherwise
the regressed status, appended to `tire_degradation_history`. -/
def predictTireDegradation (eng : Engine) (lap_number : ℕ) (current : ℚ) :
    TireStatus × Engine :=
  if eng.lap_history.length < 3 then (newTiresSentinel, eng)
  else
    let slp := tireSpeedLossPercent eng current
    let grip := tireGripRaw eng current
    let rate := tireDegradationRate eng
    let lapsRem := tireLapsRemaining eng current
    let pit := if grip < 75 ∨ lapsRem < 3 then true else false
    let ts : TireStatus :=
      { lap := some lap_number, grip_level := pyRound 1 grip,
        degradation_rate := pyRound 3 rate, speed_loss_percent := some (pyRound 2 slp),
        laps_remaining := lapsRem, pit_recommended := pit,
        status := tireStatusBand grip }
    (ts, { eng with tire_degradation_history := eng.tire_degradation_history ++ [ts] })

/-- `_get_performance_rating(score)`: letter grade bands. -/
def performanceRating (score : ℚ) : String :=
  if 95 ≤ score then "S+"
  else if 90 ≤ score then "S"
  else if 85 ≤ score then "A+"
  else if 80 ≤ score then "A"
  else if 75 ≤ score then "B+"
  else if 70 ≤ score then "B"
  else if 60 ≤ score then "C"
  else "D"

/-- `_calculate_performance_trend()`: compare first to last of the last up
to 5 performance snapshots (STABLE below 3 snapshots). -/
def performanceTrend (eng : Engine) : String :=
  if eng.driver_performance_metrics.length < 3 then "STABLE"
  else
    let metrics := eng.driver_performance_metrics
    let recent := (metrics.drop (metrics.length - min 5 metrics.length)).map
      (fun m => m.overall_score)
    if 3 ≤ recent.length then
      let trend := recent.getLastI - recent.headI
      if 3 < trend then "IMPROVING"
      else if trend < -3 then "DECLINING"
      else "STABLE"
    else "STABLE"

/-- `calculate_driver_performance(lap_info)`: the `INSUFFICIENT_DATA`
result (no metrics append) below 2 completed laps; otherwise the
speed/consistency/smoothness composite over the recent window, appended to
`driver_performance_metrics`.  Smoothness reads `self.current_lap_data`,
which `process_lap` has already set to the finalized lap. -/
def calculateDriverPerformance (P : GeoPrims) (eng : Engine) (lap_info : LapInfo) :
    PerfResult × Engine :=
  if eng.lap_history.length < 2 then (.insufficient, eng)
  else
    let lap_times := (recentLaps eng).map (fun l => l.total_time)
    let best_time := listMinQ lap_times
    let current_time := lap_info.total_time
    let speed_score := max 0 (100 - (current_time - best_time) / best_time * 100)
    let consistency_score := max 0 (100 - stdQ P lap_times * 10)
    let lap_speeds := eng.current_lap_data.map (fun p => p.speed)
    let smoothness_score :=
      if lap_speeds ≠ [] then
        let changes := (lap_speeds.zip (lap_speeds.drop 1)).map (fun q => |q.2 - q.1|)
        let avg_change := if changes ≠ [] then meanQ changes else 0
        max 0 (100 - avg_change * 5)
      else 75
    let overall := speed_score * (4/10) + consistency_score * (3/10) +
      smoothness_score * (3/10)
    let perf : Perf :=
      { lap := lap_info.lap_number, overall_score := pyRound 1 overall,
        speed_score := pyRound 1 speed_score,
        consistency_score := pyRound 1 consistency_score,
        smoothness_score := pyRound 1 smoothness_score,
        rating := performanceRating overall, trend := performanceTrend eng }
    (.full perf,
     { eng with driver_performance_metrics := eng.driver_performance_metrics ++ [perf] })

/-- `_get_race_phase(progress)`. -/
def getRacePhase (progress : ℚ) : String :=
  if progress < 1/4 then "OPENING"
  else if progress < 1/2 then "EARLY"
  else if progress < 3/4 then "MIDDLE"
  else "CLOSING"

/-- `generate_race_strategy(lap_number, total_laps)`: the
`INSUFFICIENT_DATA` result with no completed lap or `lap_number < 2`;
otherwise the rule engine's three priority buckets flattened
HIGH → MEDIUM → LOW, appended to `race_strategy_log`. -/
def generateRaceStrategy (eng : Engine) (lap_number : ℕ) (total_laps : ℕ) :
    StrategyResult × Engine :=
  if eng.lap_history = [] ∨ lap_number < 2 then (.insufficient, eng)
  else
    let laps_remaining : ℤ := (total_laps : ℤ) - lap_number
    let race_progress : ℚ := (lap_number : ℚ) / total_laps
    let tireHigh : List StrategyItem :=
      match eng.tire_degradation_history.getLast? with
      | none => []
      | some tire =>
        if tire.pit_recommended then
          [{ category := "TIRES", icon := "🔴",
             action := if tire.grip_level < 65 then "BOX_THIS_LAP" else "PLAN_PIT_STOP" }]
        else []
    let tireMedium : List StrategyItem :=
      match eng.tire_degradation_history.getLast? with
      | none => []
      | some tire =>
        if ¬tire.pit_recommended ∧ tire.grip_level < 85 then
          [{ category := "TIRES", icon := "🟡", action := "MONITOR_CLOSELY" }]
        else []
    let paceItems : List StrategyItem × List StrategyItem :=
      if 5 ≤ eng.lap_history.length then
        let recent_times := (eng.lap_history.drop (eng.lap_history.length - 5)).map
          (fun l => l.total_time)
        let pace_trend := recent_times.getLastI - recent_times.headI
        if 1 < pace_trend then
          ([{ category := "PACE", icon := "⚠️", action := "CHECK_TIRE_PRESSURE" }], [])
        else if pace_trend < -(3/10) then
          ([], [{ category := "PACE", icon := "✅", action := "MAINTAIN_RHYTHM" }])
        else ([], [])
      else ([], [])
    let drivingItems : List StrategyItem × List StrategyItem :=
      match eng.driver_performance_metrics.getLast? with
      | none => ([], [])
      | some perf =>
        if perf.overall_score < 70 then
          ([{ category := "DRIVING", icon := "💡", action := "SMOOTH_INPUTS" }], [])
        else if perf.trend = "IMPROVING" then
          ([], [{ category := "DRIVING", icon := "📈", action := "KEEP_PUSHING" }])
        else ([], [])
    let strategy_mode :=
      if race_progress < 3/10 then "SETTLE_IN"
      else if race_progress < 7/10 then "MAINTAIN_PACE"
      else "ATTACK_MODE"
    let attackItems : List StrategyItem :=
      if race_progress < 3/10 ∨ race_progress < 7/10 then []
      else [{ category := "STRATEGY", icon := "🏁", action := "MAXIMUM_ATTACK" }]
    let lapAlerts : List StrategyItem :=
      if laps_remaining = 5 then
        [{ category := "RACE_INFO", icon := "⏱️", action := "GIVE_IT_EVERYTHING" }]
      else if laps_remaining = 1 then
        [{ category := "RACE_INFO", icon := "🏁", action := "QUALIFYING_MODE" }]
      else []
    let priority_high := tireHigh ++ paceItems.1 ++ attackItems ++ lapAlerts
    let priority_medium := tireMedium ++ drivingItems.1
    let priority_low := paceItems.2 ++ drivingItems.2
    let recommendations := priority_high ++ priority_medium ++ priority_low
    let strat : Strategy :=
      { lap := lap_number, laps_remaining := laps_remaining,
        race_progress := pyRound 1 (race_progress * 100),
        race_phase := getRacePhase race_progress, strategy_mode := strategy_mode,
        recommendations := recommendations,
        priority_action := recommendations.head? }
    (.full strat, { eng with race_strategy_log := eng.race_strategy_log ++ [strat] })

/-- `detect_overtaking_zones(lap_data)`: high-speed sections (10-sample
window mean above 50 km/h) and corner exits (below 35 km/h with a gain of
more than 10 km/h five samples later); the result replaces
`overtaking_opportunities`. -/
def detectOvertakingZones (eng : Engine) (lap_data : List Sample) :
    List OvertakingZone × Engine :=
  let speeds := lap_data.map (fun p => p.speed)
  let highSpeed := (List.range speeds.length).filterMap (fun i =>
    if 5 ≤ i ∧ i + 5 < speeds.length then
      let avg := meanQ ((speeds.drop (i - 5)).take 10)
      if 50 < avg then
        let pt := lap_data.getD i default
        some { index := i, lat := pt.lat, lon := pt.lon,
               type := "HIGH_SPEED_STRAIGHT", avg_speed := some (pyRound 1 avg),
               exit_speed := none, confidence := 85/100 }
      else none
    else none)
  let cornerExit := (List.range speeds.length).filterMap (fun i =>
    if 1 ≤ i ∧ i + 5 < speeds.length then
      if getQ speeds i < 35 ∧ getQ speeds i + 10 < getQ speeds (i + 5) then
        let pt := lap_data.getD i default
        some { index := i, lat := pt.lat, lon := pt.lon,
               type := "CORNER_EXIT", avg_speed := none,
               exit_speed := some (getQ speeds (i + 5)), confidence := 70/100 }
      else none
    else none)
  let zones := highSpeed ++ cornerExit
  (zones, { eng with overtaking_opportunities := zones })

/-- The points of a lap falling in sector `sid` under the fixed boundaries,
in arrival order (one group of the `defaultdict` built by the sector loop
of `process_lap`). -/
def sectorPoints (bnds : List ℕ) (lap_data : List Sample) (sid : ℕ) : List Sample :=
  filterByIdx (fun i => decide (identifySector bnds i = sid)) 0 lap_data

/-- Per-sector summary of a point group (`sector_times[sector_id]`). -/
def mkSectorData (pts : List Sample) : SectorData :=
  { time := pts.getLastI.timestamp - pts.headI.timestamp,
    data := pts,
    avg_speed := meanQ (pts.map (fun p => p.speed)),
    max_speed := listMaxQ (pts.map (fun p => p.speed)),
    min_speed := listMinQ (pts.map (fun p => p.speed)) }

/-- The `sector_times` mapping of `process_lap`: group the lap's points by
sector (keys in first-occurrence order, exactly the iteration order of the
Python `defaultdict`) and summarise every group holding at least 2
points. -/
def sectorTimes (bnds : List ℕ) (lap_data : List Sample) : List (ℕ × SectorData) :=
  (firstOccs ((List.range lap_data.length).map (identifySector bnds))).filterMap
    (fun sid =>
      let pts := sectorPoints bnds lap_data sid
      if 2 ≤ pts.length then some (sid, mkSectorData pts) else none)

/-- One conditional update of `update_optimal_lap`: replace
`optimal_lap[sector_id]` when the new sector time beats the current best
(a missing entry counts as `+∞`). -/
def updateOptimalStep (lap_number : ℕ) (opt : List (ℕ × OptimalEntry))
    (p : ℕ × SectorData) : List (ℕ × OptimalEntry) :=
  let better := match dictGet opt p.1 with
    | none => true
    | some e => decide (p.2.time < e.time)
  if better then
    dictSet opt p.1
      { time := p.2.time, data := p.2.data, lap_number := lap_number,
        avg_speed := p.2.avg_speed, max_speed := p.2.max_speed }
  else opt

/-- `update_optimal_lap(new_lap_info)` (its `updated_sectors` return value
is unused at the call site and omitted). -/
def updateOptimalLap (eng : Engine) (lap : LapInfo) : Engine :=
  { eng with optimal_lap :=
      (lap.sectors.foldl (updateOptimalStep lap.lap_number) eng.optimal_lap) }

/-- The opening of `process_lap`: run `auto_detect_sectors` on the first
lap (the boundaries are set only when detection succeeds). -/
def applyAutoDetect (P : GeoPrims) (eng : Engine) (gps : List (ℚ × ℚ)) : Engine :=
  if eng.sector_boundaries = [] then
    match autoDetectSectors P gps with
    | none => eng
    | some bnds => { eng with sector_boundaries := bnds }
  else eng

/-- The sector boundaries in force while a lap is processed: the existing
ones, or the freshly detected ones on the first lap (still `[]` when
detection fails). -/
def boundariesAfter (P : GeoPrims) (eng : Engine) (gps : List (ℚ × ℚ)) : List ℕ :=
  if eng.sector_boundaries = [] then (autoDetectSectors P gps).getD []
  else eng.sector_boundaries

/-- `process_lap(lap_data)`: `None` (no state change) below 10 samples;
otherwise sector analysis, the advanced extractors, tire and performance
snapshots, history append and optimal-lap update, in source order. -/
def processLap (P : GeoPrims) (eng : Engine) (lap_data : List Sample) :
    Option LapInfo × Engine :=
  if lap_data.length < 10 then (none, eng)
  else
    let gps := lap_data.map (fun d => (d.lat, d.lon))
    let eng : Engine := applyAutoDetect P eng gps
    let sectors := sectorTimes eng.sector_boundaries lap_data
    let lap_number := eng.lap_history.length + 1
    let total_time := lap_data.getLastI.timestamp - lap_data.headI.timestamp
    let speeds := lap_data.map (fun p => p.speed)
    let avg_speed := meanQ speeds
    let max_speed := listMaxQ speeds
    let corners := detectCorners P lap_data
    let ca := analyzeCornerPerformance eng corners lap_number
    let eng : Engine := ca.2
    let brakeZ := detectBrakeZones lap_data
    let accelZ := detectAccelZones lap_data
    let brakeOpt := optimizeBrakePoints P eng brakeZ
    let tp := predictTireDegradation eng lap_number avg_speed
    let eng : Engine := tp.2
    let oz := detectOvertakingZones eng lap_data
    let eng : Engine := oz.2
    let eng : Engine := { eng with current_lap_data := lap_data }
    let base : LapInfo :=
      { lap_number := lap_number, total_time := total_time, avg_speed := avg_speed,
        max_speed := max_speed, sectors := sectors, corners := corners,
        corner_analysis := ca.1, brake_zones := brakeZ, accel_zones := accelZ,
        brake_optimization := brakeOpt, tire_status := tp.1,
        overtaking_zones := oz.1, performance := none }
    let pf : Option PerfResult × Engine :=
      if 1 ≤ eng.lap_history.length then
        let r := calculateDriverPerformance P eng base
        (some r.1, r.2)
      else (none, eng)
    let eng := pf.2
    let lap_info := { base with performance := pf.1 }
    let eng := { eng with lap_history := eng.lap_history ++ [lap_info] }
    let eng := updateOptimalLap eng lap_info
    let eng := if brakeZ ≠ [] then { eng with brake_zones := eng.brake_zones ++ brakeZ }
      else eng
    (some lap_info, eng)

/-- `calculate_improvement_potential()`: fastest observed lap time minus
the composed optimal time (0 with no history). -/
def calculateImprovementPotential (eng : Engine) : ℚ :=
  match minByFirst (fun l => l.total_time) eng.lap_history with
  | none => 0
  | some fastest => fastest.total_time - (eng.optimal_lap.map (fun p => p.2.time)).sum

/-- The dict returned by `get_optimal_lap_time()`. -/
structure OptimalTime where
  optimal_time : ℚ
  sectors : List (ℕ × OptimalEntry)
  improvement_potential : ℚ
  deriving DecidableEq, Inhabited

/-- `get_optimal_lap_time()`: `None` with an empty optimal lap. -/
def getOptimalLapTime (eng : Engine) : Option OptimalTime :=
  if eng.optimal_lap = [] then none
  else some { optimal_time := (eng.optimal_lap.map (fun p => p.2.time)).sum,
              sectors := eng.optimal_lap,
              improvement_potential := calculateImprovementPotential eng }

/-- `calculate_real_time_delta(current_position, current_sector,
elapsed_time)`: 0 when the sector has no optimal entry; else index the
optimal sector's point list at
`min(int((current_position / len) * len), len - 1)` and return the optimal
elapsed time minus the actual elapsed time.  An empty stored point list
(never produced by the engine) is a Python `ZeroDivisionError`, modelled as
an error. -/
def calculateRealTimeDelta (eng : Engine) (current_position : ℕ)
    (current_sector : ℕ) (elapsed_time : ℚ) : Except String ℚ :=
  match dictGet eng.optimal_lap current_sector with
  | none => .ok 0
  | some entry =>
    let data := entry.data
    if data.length = 0 then .error "ZeroDivisionError"
    else
      let k : ℤ := min (pyInt ((current_position : ℚ) / data.length * data.length))
        ((data.length : ℤ) - 1)
      let optimal_elapsed := (data.getD k.toNat default).timestamp -
        data.headI.timestamp
      .ok (optimal_elapsed - elapsed_time)

/-- The dict returned by `predict_lap_time`. -/
structure Prediction where
  predicted_lap_time : ℚ
  confidence : ℚ
  optimal_time : Option ℚ
  deriving DecidableEq, Inhabited

/-- Row distance `np.abs(X - current).sum(axis=1)` for one training row
under numpy broadcasting: elementwise when the lengths agree, broadcast
when `current` is a singleton, otherwise a `ValueError`. -/
def rowAbsDiffSum (row cur : List ℚ) : Except String ℚ :=
  if row.length = cur.length then
    .ok (((row.zip cur).map (fun p => |p.1 - p.2|)).sum)
  else if cur.length = 1 then
    .ok ((row.map (fun x => |x - cur.headI|)).sum)
  else .error "ValueError: operands could not be broadcast together"

/-- `predict_lap_time(current_lap_data, current_sector)`: `None` below 3
history laps or fewer than 2 usable training rows; else the
similarity-weighted average of historical total times. -/
def predictLapTime (P : GeoPrims) (eng : Engine) (current_lap_data : List Sample)
    (current_sector : ℕ) : Except String (Option Prediction) :=
  if eng.lap_history.length < 3 then .ok none
  else
    let completed := List.range (current_sector + 1)
    let current_times := completed.filterMap (fun sid =>
      let pts := sectorPoints eng.sector_boundaries current_lap_data sid
      if 2 ≤ pts.length then some (pts.getLastI.timestamp - pts.headI.timestamp)
      else none)
    let rows := eng.lap_history.filterMap (fun lap =>
      let early := completed.filterMap (fun sid =>
        (dictGet lap.sectors sid).map (fun sd => sd.time))
      if early.length = completed.length then some (early, lap.total_time) else none)
    if rows.length < 2 then .ok none
    else do
      let dists ← rows.mapM (fun r => rowAbsDiffSum r.1 current_times)
      let sims := dists.map (fun d => 1 / (1 + d))
      let weights := sims.map (fun s => s / sims.sum)
      let predicted := ((weights.zip (rows.map (fun r => r.2))).map
        (fun p => p.1 * p.2)).sum
      .ok (some { predicted_lap_time := predicted,
                  confidence := listMaxQ weights,
                  optimal_time := (getOptimalLapTime eng).map
                    (fun o => o.optimal_time) })

/-- `get_racing_line()`: concatenation, in ascending sector-id order, of
the stored optimal points. -/
def getRacingLine (eng : Engine) : List (ℚ × ℚ) :=
  ((eng.optimal_lap.map (fun p => p.1)).mergeSort (fun a b => a ≤ b)).flatMap
    (fun sid => match dictGet eng.optimal_lap sid with
      | none => []
      | some e => e.data.map (fun p => (p.lat, p.lon)))

/-- An entry of `identify_improvement_zones()` (the `f"sector_{id}"` key is
modelled by the id). -/
structure ImprovementZone where
  time_loss : ℚ
  percentage_loss : ℚ
  optimal_avg_speed : ℚ
  current_avg_speed : ℚ
  speed_deficit : ℚ
  deriving DecidableEq, Inhabited

/-- `identify_improvement_zones()`: empty below 3 history laps; else, for
each sector of the latest lap with an optimal entry, the time loss against
the optimal, sorted by time loss descending. -/
def identifyImprovementZones (eng : Engine) : List (ℕ × ImprovementZone) :=
  if eng.lap_history = [] ∨ eng.lap_history.length < 3 then []
  else
    match eng.lap_history.getLast? with
    | none => []
    | some latest =>
      (latest.sectors.filterMap (fun p =>
        match dictGet eng.optimal_lap p.1 with
        | none => none
        | some opt =>
          let delta := p.2.time - opt.time
          some (p.1, { time_loss := delta,
                       percentage_loss := delta / opt.time * 100,
                       optimal_avg_speed := opt.avg_speed,
                       current_avg_speed := p.2.avg_speed,
                       speed_deficit := opt.avg_speed - p.2.avg_speed }))).mergeSort
        (fun a b => b.2.time_loss ≤ a.2.time_loss)

/-- Python truthiness of `self.lap_start_time`: `None` and timestamp `0`
are both falsy. -/
def falsyTime : Option ℚ → Bool
  | none => true
  | some t => t == 0

/-- `should_start_new_lap(data_point)`: fires on an empty buffer or a falsy
`lap_start_time` (Python treats both `None` and timestamp `0` as falsy);
otherwise requires at least 50 buffered samples and a return to within
20 m of the buffer's first point. -/
def shouldStartNewLap (P : GeoPrims) (st : ApiState) (s : Sample) : Bool :=
  if st.current_lap_buffer = [] ∨ falsyTime st.lap_start_time then true
  else if st.current_lap_buffer.length < 50 then false
  else
    let start := st.current_lap_buffer.headI
    if P.haversine start.lat start.lon s.lat s.lon < 20 then true else false

/-- Result dict of one `process_telemetry_point` call: lap completion,
the full live response (optimal lap present and more than 5 buffered
samples), or the bare `{lap_completed: False, delta: 0}`. -/
inductive ApiResponse where
  | lapCompleted (lap : LapInfo) (strategy : StrategyResult)
  | live (delta : ℚ) (current_sector : ℕ) (prediction : Option Prediction)
      (optimal_lap_time : Option OptimalTime)
  | basic
  deriving DecidableEq, Inhabited

/-- `process_telemetry_point(data_point)`.  On a boundary with a non-empty
buffer the buffer is finalized and cleared and the call returns without
touching `lap_start_time` and without buffering the triggering sample; a
sub-10-sample buffer makes `process_lap` return `None`, which the source
then subscripts — a `TypeError`.  Otherwise the sample is appended (after
setting `lap_start_time` on an empty-buffer boundary) and the live
response is produced. -/
def processTelemetryPoint (P : GeoPrims) (st : ApiState) (s : Sample) :
    Except String (ApiResponse × ApiState) :=
  if shouldStartNewLap P st s ∧ st.current_lap_buffer ≠ [] then
    match processLap P st.engine st.current_lap_buffer with
    | (none, _) => .error "TypeError: NoneType object is not subscriptable"
    | (some lap, eng1) =>
      let gs := generateRaceStrategy eng1 lap.lap_number st.race_total_laps
      .ok (.lapCompleted lap gs.1,
           { st with engine := gs.2, current_lap_buffer := [] })
  else
    let st := if shouldStartNewLap P st s then
        { st with lap_start_time := some s.timestamp }
      else st
    let st := { st with current_lap_buffer := st.current_lap_buffer ++ [s] }
    if st.engine.optimal_lap ≠ [] ∧ 5 < st.current_lap_buffer.length then
      match st.lap_start_time with
      | none => .error "TypeError: unsupported operand type"
      | some t0 => do
        let cs := identifySector st.engine.sector_boundaries
          (st.current_lap_buffer.length - 1)
        let delta ← calculateRealTimeDelta st.engine
          (st.current_lap_buffer.length - 1) cs (s.timestamp - t0)
        let pred ← predictLapTime P st.engine st.current_lap_buffer cs
        .ok (.live delta cs pred (getOptimalLapTime st.engine), st)
    else .ok (.basic, st)

/-- `session_stats` of `get_dashboard_data`. -/
structure SessionStats where
  total_laps : ℕ
  best_lap : Option LapInfo
  avg_lap_time : Option ℚ
  deriving DecidableEq, Inhabited

/-- The dict returned by `get_dashboard_data`. -/
structure DashboardData where
  current_position : Option (ℚ × ℚ)
  optimal_lap : Option OptimalTime
  lap_history : List LapInfo
  racing_line : List (ℚ × ℚ)
  improvement_zones : List (ℕ × ImprovementZone)
  latest_lap : Option LapInfo
  tire_status : Option TireStatus
  performance : Option Perf
  race_strategy : Option StrategyResult
  overtaking_zones : List OvertakingZone
  session_stats : SessionStats
  deriving DecidableEq, Inhabited

/-- `get_dashboard_data()`: assembles the dashboard; the `race_strategy`
field calls `generate_race_strategy`, which appends to
`race_strategy_log`, so the call threads the engine state. -/
def getDashboardData (P : GeoPrims) (st : ApiState) : DashboardData × ApiState :=
  let sr : Option StrategyResult × Engine :=
    if st.engine.lap_history ≠ [] then
      let g := generateRaceStrategy st.engine st.engine.lap_history.length
        st.race_total_laps
      (some g.1, g.2)
    else (none, st.engine)
  let d : DashboardData :=
    { current_position := (st.current_lap_buffer.getLast?).map
        (fun p => (p.lat, p.lon)),
      optimal_lap := getOptimalLapTime st.engine,
      lap_history := st.engine.lap_history.drop
        (st.engine.lap_history.length - min 15 st.engine.lap_history.length),
      racing_line := getRacingLine st.engine,
      improvement_zones := identifyImprovementZones st.engine,
      latest_lap := st.engine.lap_history.getLast?,
      tire_status := st.engine.tire_degradation_history.getLast?,
      performance := st.engine.driver_performance_metrics.getLast?,
      race_strategy := sr.1,
      overtaking_zones := st.engine.overtaking_opportunities,
      session_stats :=
        { total_laps := st.engine.lap_history.length,
          best_lap := minByFirst (fun l => l.total_time) st.engine.lap_history,
          avg_lap_time := if st.engine.lap_history ≠ [] then
              some (meanQ (st.engine.lap_history.map (fun l => l.total_time)))
            else none } }
  (d, { st with engine := sr.2 })

/-- Response of the `/api/tire_status` route. -/
inductive TireRoute where
  | noData
  | data (t : TireStatus)
  deriving DecidableEq, Inhabited

/-- The `/api/tire_status` handler of `racing_api_server.py`: the last
tire status when the history is non-empty, else `{status: NO_DATA}`. -/
def apiGetTireStatus (eng : Engine) : TireRoute :=
  match eng.tire_degradation_history.getLast? with
  | none => .noData
  | some t => .data t

/-! Definitions following the specification's words, for comparison with
the code-derived definitions above. -/

/-- Cumulative inter-sample distance of sample index `j`: the distance
travelled from sample 0 to sample `j`. -/
def sampleCumDist (P : GeoPrims) (gps : List (ℚ × ℚ)) (j : ℕ) : ℚ :=
  ((pairDists P gps).take j).sum

/-- The sector boundaries as the specification states them: `[0, i1, i2,
N-1]` where `ik` is the first sample index whose cumulative inter-sample
distance reaches `k * total / num_sectors` (`none` below `num_sectors *
10` points or when a threshold is never reached). -/
def claimedBoundaries (P : GeoPrims) (gps : List (ℚ × ℚ)) (numSectors : ℕ := 3) :
    Option (List ℕ) :=
  if gps.length < numSectors * 10 then none
  else
    let total := (pairDists P gps).sum
    let sectorLen := total / numSectors
    match (List.range gps.length).find?
        (fun j => decide (sectorLen ≤ sampleCumDist P gps j)),
      (List.range gps.length).find?
        (fun j => decide (sectorLen * 2 ≤ sampleCumDist P gps j)) with
    | some i1, some i2 => some [0, i1, i2, gps.length - 1]
    | _, _ => none

/-- The live delta as the specification states it: with `progress` the
index within the current sector divided by the current sector's length
(both from the fixed boundaries), the reference index into the optimal
sector's `data` is `min(floor(progress * len), len - 1)`. -/
def claimedLiveDelta (bnds : List ℕ) (data : List Sample) (cur : ℕ)
    (cs : ℕ) (elapsed : ℚ) : ℚ :=
  let secStart := bnds.getD cs 0
  let secLen := bnds.getD (cs + 1) 0 - secStart
  let progress : ℚ := ((cur - secStart : ℕ) : ℚ) / (secLen : ℚ)
  let k := min (Int.toNat ⌊progress * data.length⌋) (data.length - 1)
  (data.getD k default).timestamp - data.headI.timestamp - elapsed

/-! Concrete instantiations used by witnesses and counterexamples. -/

/-- Concrete numeric primitives for evaluation: taxicab distance,
identity smoothing, zero square root. -/
def P0 : GeoPrims :=
  { haversine := fun la1 lo1 la2 lo2 => |la2 - la1| + |lo2 - lo1|,
    savgol := id, sqrtQ := fun _ => 0 }

/-- First sample of the crashing ingest trace: timestamp 0 (falsy for
Python's `not self.lap_start_time`). -/
def sampleZero : Sample := { timestamp := 0, lat := 0, lon := 0, speed := 10 }

/-- Second sample of the crashing ingest trace, 100 m away. -/
def sampleFar : Sample := { timestamp := 1, lat := 100, lon := 0, speed := 10 }

/-- The API state after ingesting `sampleZero` from a fresh state: one
buffered sample, `lap_start_time = 0`. -/
def traceSt1 : ApiState :=
  { engine := emptyEngine, current_lap_buffer := [sampleZero],
    lap_start_time := some 0, race_total_laps := 20 }

/-- A minimal completed-lap record with the given lap number, total time
and average speed (the analytics fields are irrelevant to the statements
that use it). -/
def mkLap (n : ℕ) (t avg : ℚ) : LapInfo :=
  { lap_number := n, total_time := t, avg_speed := avg, max_speed := 0,
    sectors := [], corners := [], corner_analysis := [], brake_zones := [],
    accel_zones := [], brake_optimization := [], tire_status := newTiresSentinel,
    overtaking_zones := [], performance := none }

/-- An engine with three completed laps of constant average speed 50. -/
def engThreeLaps : Engine :=
  { emptyEngine with lap_history := [mkLap 1 60 50, mkLap 2 61 50, mkLap 3 62 50] }

/-- A stored optimal entry of 5 points with timestamps 0..4. -/
def optEntryFive : OptimalEntry :=
  { time := 4,
    data := [{ timestamp := 0, lat := 0, lon := 0, speed := 0 },
             { timestamp := 1, lat := 0, lon := 0, speed := 0 },
             { timestamp := 2, lat := 0, lon := 0, speed := 0 },
             { timestamp := 3, lat := 0, lon := 0, speed := 0 },
             { timestamp := 4, lat := 0, lon := 0, speed := 0 }],
    lap_number := 1, avg_speed := 0, max_speed := 0 }

/-- An engine holding `optEntryFive` as the sector-0 optimal, with fixed
boundaries `[0, 10, 20, 29]`. -/
def engOpt : Engine :=
  { emptyEngine with
      optimal_lap := [(0, optEntryFive)]
      sector_boundaries := [0, 10, 20, 29] }

/-! Basic lemmas about the rounding helpers. -/

/-- Round-half-to-even of a non-negative rational is non-negative. -/
theorem pyRoundInt_nonneg {q : ℚ} (h : 0 ≤ q) : 0 ≤ pyRoundInt q := by
  have hfl : (0 : ℤ) ≤ ⌊q⌋ := Int.le_floor.2 (by exact_mod_cast h)
  simp only [pyRoundInt]
  split_ifs <;> omega

/-- `pyRound` preserves non-negativity. -/
theorem pyRound_nonneg {q : ℚ} (d : ℕ) (h : 0 ≤ q) : 0 ≤ pyRound d q := by
  unfold pyRound
  have h1 : (0 : ℤ) ≤ pyRoundInt (q * 10 ^ d) :=
    pyRoundInt_nonneg (by positivity)
  have h2 : (0 : ℚ) ≤ (pyRoundInt (q * 10 ^ d) : ℚ) := by exact_mod_cast h1
  positivity

/-- `pyRound` is the identity on integers. -/
theorem pyRound_intCast (z : ℤ) (d : ℕ) : pyRound d (z : ℚ) = z := by
  have hz : ((z : ℚ) * 10 ^ d) = ((z * 10 ^ d : ℤ) : ℚ) := by push_cast; ring
  have hfl : ⌊((z * 10 ^ d : ℤ) : ℚ)⌋ = z * 10 ^ d := Int.floor_intCast _
  simp only [pyRound, pyRoundInt, hz, hfl]
  rw [sub_self, if_pos (by norm_num)]
  have h10 : (10 : ℚ) ^ d ≠ 0 := by positivity
  push_cast
  field_simp

/-! Claim C10. -/

/-- C10: whenever fewer than 3 laps are in `lap_history`,
`predict_tire_degradation` returns the `NEW_TIRES` sentinel and leaves the
engine — in particular `tire_degradation_history` — unchanged; and while
the tire history is empty the `/api/tire_status` route reports
`NO_DATA`. -/
theorem c10_tire_sentinel_no_append (eng : Engine) (lap_number : ℕ) (current : ℚ)
    (h : eng.lap_history.length < 3) :
    predictTireDegradation eng lap_number current = (newTiresSentinel, eng) ∧
    (eng.tire_degradation_history = [] → apiGetTireStatus eng = .noData) := by
  refine ⟨by simp [predictTireDegradation, h], fun he => by simp [apiGetTireStatus, he]⟩

/-- Witness for C10 at a fresh engine. -/
theorem c10_tire_sentinel_no_append_witness :
    emptyEngine.lap_history.length < 3 ∧
    (predictTireDegradation emptyEngine 1 0 = (newTiresSentinel, emptyEngine) ∧
     (emptyEngine.tire_degradation_history = [] →
       apiGetTireStatus emptyEngine = .noData)) :=
  ⟨by decide, c10_tire_sentinel_no_append emptyEngine 1 0 (by decide)⟩

/-! Claim C5. -/

/-- C5 counterexample: after three laps of average speed 50, a current lap
averaging 60 yields `grip_level = 120`, outside the claimed `[0, 100]`
range — the source never clamps `speed_loss_percent` from below. -/
theorem c5_counterexample :
    (predictTireDegradation engThreeLaps 4 60).1.grip_level = 120 ∧
    ¬((predictTireDegradation engThreeLaps 4 60).1.grip_level ≤ 100) := by
  have hlen : ¬(engThreeLaps.lap_history.length < 3) := by
    simp [engThreeLaps, emptyEngine]
  have h1 : tireGripRaw engThreeLaps 60 = 120 := by
    norm_num [tireGripRaw, tireSpeedLossPercent, tireInitialSpeed, recentLaps,
      engThreeLaps, emptyEngine, mkLap, max_def]
  have h2 : (predictTireDegradation engThreeLaps 4 60).1.grip_level =
      pyRound 1 (tireGripRaw engThreeLaps 60) := by
    simp [predictTireDegradation, hlen]
  have h120 : ((120 : ℤ) : ℚ) = (120 : ℚ) := by norm_num
  rw [h2, h1, ← h120, pyRound_intCast]
  norm_num

/-- C5 as amended: every tire status produced with at least 3 laps in
history has a non-negative `grip_level`; `pit_recommended` holds iff the
unrounded grip level is below 75 or `laps_remaining` is below 3; and the
unrounded grip level is at most 100 iff the speed-loss percentage is
non-negative (the source does not clamp it, so grip above 100 occurs
exactly when the current pace beats the first window lap). -/
theorem c5_grip_and_pit (eng : Engine) (lap_number : ℕ) (current : ℚ)
    (h : 3 ≤ eng.lap_history.length) :
    0 ≤ (predictTireDegradation eng lap_number current).1.grip_level ∧
    ((predictTireDegradation eng lap_number current).1.pit_recommended = true ↔
      (tireGripRaw eng current < 75 ∨ tireLapsRemaining eng current < 3)) ∧
    (tireGripRaw eng current ≤ 100 ↔ 0 ≤ tireSpeedLossPercent eng current) := by
  have hlen : ¬(eng.lap_history.length < 3) := by omega
  refine ⟨?_, ?_, ?_⟩
  · simp only [predictTireDegradation, if_neg hlen]
    exact pyRound_nonneg 1 (le_max_left 0 _)
  · simp only [predictTireDegradation, if_neg hlen]
    split_ifs with hc
    · simpa using hc
    · simpa using hc
  · unfold tireGripRaw
    constructor
    · intro hle
      by_contra hneg
      push_neg at hneg
      have : (100 : ℚ) < max 0 (100 - tireSpeedLossPercent eng current) := by
        have : (100 : ℚ) < 100 - tireSpeedLossPercent eng current := by linarith
        exact lt_max_of_lt_right this
      linarith
    · intro hnn
      have h1 : 100 - tireSpeedLossPercent eng current ≤ 100 := by linarith
      exact max_le (by norm_num) h1

/-- Witness for the amended C5 at the three-lap engine. -/
theorem c5_grip_and_pit_witness :
    3 ≤ engThreeLaps.lap_history.length ∧
    (0 ≤ (predictTireDegradation engThreeLaps 4 60).1.grip_level ∧
     ((predictTireDegradation engThreeLaps 4 60).1.pit_recommended = true ↔
       (tireGripRaw engThreeLaps 60 < 75 ∨ tireLapsRemaining engThreeLaps 60 < 3)) ∧
     (tireGripRaw engThreeLaps 60 ≤ 100 ↔ 0 ≤ tireSpeedLossPercent engThreeLaps 60)) :=
  ⟨by simp [engThreeLaps, emptyEngine],
   c5_grip_and_pit engThreeLaps 4 60 (by simp [engThreeLaps, emptyEngine])⟩

/-! Claim C3. -/

/-- C3: failing input for the boundary-detector invariant.  After
ingesting a single sample with timestamp 0 (a reachable state: Python's
`not self.lap_start_time` treats the stored 0 as unset), the detector
fires on the next sample although the buffer holds 1 < 50 samples and the
distance to the buffered start is 100 m, not below 20 m. -/
theorem c3_boundary_fires_without_guard :
    shouldStartNewLap P0 traceSt1 sampleFar = true ∧
    traceSt1.current_lap_buffer ≠ [] ∧
    traceSt1.current_lap_buffer.length < 50 ∧
    ¬(P0.haversine traceSt1.current_lap_buffer.headI.lat
        traceSt1.current_lap_buffer.headI.lon sampleFar.lat sampleFar.lon < 20) := by
  refine ⟨?_, by simp [traceSt1], by simp [traceSt1], ?_⟩
  · simp [shouldStartNewLap, traceSt1, falsyTime]
  · norm_num [P0, traceSt1, sampleZero, sampleFar]

/-! Claim C2. -/

/-- C2: failing trace for the degenerate-input policy.  A first sample
with timestamp 0 ingests normally; the second sample fires the boundary
detector (falsy `lap_start_time`), `process_lap` on the 1-sample buffer
returns `None`, and `process_telemetry_point` subscripts it — the ingest
call raises `TypeError` instead of discarding the buffer and returning
normally, and no reset happens. -/
theorem c2_short_buffer_boundary_raises :
    processTelemetryPoint P0 initialApiState sampleZero = .ok (.basic, traceSt1) ∧
    processTelemetryPoint P0 traceSt1 sampleFar =
      .error "TypeError: NoneType object is not subscriptable" := by
  constructor
  · have hs : shouldStartNewLap P0 initialApiState sampleZero = true := by
      simp [shouldStartNewLap, initialApiState, falsyTime]
    simp only [processTelemetryPoint]
    rw [if_neg (by simp [initialApiState])]
    simp only [hs]
    simp [initialApiState, sampleZero, traceSt1, emptyEngine]
  · have h : shouldStartNewLap P0 traceSt1 sampleFar = true := by
      simp [shouldStartNewLap, traceSt1, falsyTime]
    have hbuf : traceSt1.current_lap_buffer ≠ [] := by simp [traceSt1]
    simp only [processTelemetryPoint]
    rw [if_pos ⟨h, hbuf⟩]
    have hpl : processLap P0 traceSt1.engine traceSt1.current_lap_buffer =
        (none, traceSt1.engine) := by
      simp [processLap, traceSt1]
    rw [hpl]

/-! Claim C9. -/

/-- General evaluation of `calculate_real_time_delta`: the source's
`(current_position / len) * len` cancels exactly, so the reference index
into the optimal point list is `min(current_position, len - 1)`. -/
theorem calculateRealTimeDelta_eq (eng : Engine) (cur cs : ℕ) (elapsed : ℚ)
    (entry : OptimalEntry) (h1 : dictGet eng.optimal_lap cs = some entry)
    (h2 : entry.data ≠ []) :
    calculateRealTimeDelta eng cur cs elapsed =
      .ok ((entry.data.getD (min cur (entry.data.length - 1)) default).timestamp -
        entry.data.headI.timestamp - elapsed) := by
  have hpos : 0 < entry.data.length := List.length_pos.2 h2
  have hlen : ¬(entry.data.length = 0) := by omega
  simp only [calculateRealTimeDelta, h1]
  rw [if_neg hlen]
  have hQ : ((entry.data.length : ℚ)) ≠ 0 := by exact_mod_cast hlen
  have hcast : ((cur : ℚ) / entry.data.length * entry.data.length) = (cur : ℚ) := by
    field_simp
  have hpy : pyInt ((cur : ℚ)) = (cur : ℤ) := by
    simp [pyInt, Int.floor_natCast]
  rw [hcast, hpy]
  have hk : (min ((cur : ℤ)) ((entry.data.length : ℤ) - 1)).toNat =
      min cur (entry.data.length - 1) := by omega
  rw [hk]

/-- C9 as amended: while an optimal entry with a non-empty point list
exists for the current sector, the per-sample delta equals the optimal
sector's point list read at `min(current_position, len - 1)` minus the
first stored timestamp minus the elapsed time — the raw buffer position,
not the claimed within-sector proportional mapping, is the reference
index. -/
theorem c9_delta_uses_raw_position (eng : Engine) (cur cs : ℕ) (elapsed : ℚ)
    (entry : OptimalEntry) (h1 : dictGet eng.optimal_lap cs = some entry)
    (h2 : entry.data ≠ []) :
    calculateRealTimeDelta eng cur cs elapsed =
      .ok ((entry.data.getD (min cur (entry.data.length - 1)) default).timestamp -
        entry.data.headI.timestamp - elapsed) :=
  calculateRealTimeDelta_eq eng cur cs elapsed entry h1 h2

/-- Witness for the amended C9 at a concrete optimal sector of 5 points. -/
theorem c9_delta_uses_raw_position_witness :
    dictGet engOpt.optimal_lap 0 = some optEntryFive ∧
    optEntryFive.data ≠ [] ∧
    calculateRealTimeDelta engOpt 6 0 2 =
      .ok ((optEntryFive.data.getD (min 6 (optEntryFive.data.length - 1))
        default).timestamp - optEntryFive.data.headI.timestamp - 2) :=
  ⟨by simp [engOpt, emptyEngine, optEntryFive, dictGet],
   by simp [optEntryFive],
   c9_delta_uses_raw_position engOpt 6 0 2 optEntryFive
     (by simp [engOpt, emptyEngine, optEntryFive, dictGet]) (by simp [optEntryFive])⟩

/-- C9 counterexample: with boundaries `[0, 10, 20, 29]` and an optimal
sector-0 entry of 5 points with timestamps 0..4, buffer position 6 and
elapsed time 2, the code returns delta 2 (index `min(6, 4) = 4`) while the
claimed within-sector proportional mapping gives delta 1 (index
`min(floor((6/10)*5), 4) = 3`). -/
theorem c9_counterexample :
    calculateRealTimeDelta engOpt 6 0 2 = .ok 2 ∧
    claimedLiveDelta engOpt.sector_boundaries optEntryFive.data 6 0 2 = 1 ∧
    ¬((2 : ℚ) = 1) := by
  refine ⟨?_, ?_, by norm_num⟩
  · rw [calculateRealTimeDelta_eq engOpt 6 0 2 optEntryFive
      (by simp [engOpt, emptyEngine, optEntryFive, dictGet]) (by simp [optEntryFive])]
    norm_num [optEntryFive]
  · have hfl : ⌊(6 : ℚ) / 10 * 5⌋ = 3 := by
      rw [show (6 : ℚ) / 10 * 5 = 3 by norm_num,
        show (3 : ℚ) = ((3 : ℤ) : ℚ) by norm_num, Int.floor_intCast]
    have ht : Int.toNat 3 = 3 := rfl
    norm_num [claimedLiveDelta, engOpt, emptyEngine, optEntryFive, hfl, ht]

/-! Frame lemmas: each analysis stage of `process_lap` mutates exactly one
engine field. -/

/-- `analyzeCornerStep` only writes `corner_data`. -/
theorem analyzeCornerStep_state (eng : Engine) (n i : ℕ) (c : Corner) :
    ∃ cd, (analyzeCornerStep eng n i c).2 = { eng with corner_data := cd } := by
  simp only [analyzeCornerStep]
  split_ifs <;> exact ⟨_, rfl⟩

/-- The fold of `analyze_corner_performance` only writes `corner_data`. -/
theorem analyzeCornerFold_state (n : ℕ) (cs : List Corner) :
    ∀ (acc : List CornerAnalysis) (eng : Engine) (i : ℕ),
      ∃ cd, (cs.foldl (fun (acc : List CornerAnalysis × Engine × ℕ) c =>
          let r := analyzeCornerStep acc.2.1 n acc.2.2 c
          (acc.1 ++ r.1.toList, r.2, acc.2.2 + 1)) (acc, eng, i)).2.1 =
        { eng with corner_data := cd } := by
  induction cs with
  | nil => exact fun acc eng i => ⟨eng.corner_data, rfl⟩
  | cons c cs ih =>
    intro acc eng i
    obtain ⟨cd0, h0⟩ := analyzeCornerStep_state eng n i c
    obtain ⟨cd1, h1⟩ := ih (acc ++ (analyzeCornerStep eng n i c).1.toList)
      (analyzeCornerStep eng n i c).2 (i + 1)
    refine ⟨cd1, ?_⟩
    simp only [List.foldl_cons]
    rw [h1, h0]

/-- `analyze_corner_performance` only writes `corner_data`. -/
theorem analyzeCornerPerformance_state (eng : Engine) (cs : List Corner) (n : ℕ) :
    ∃ cd, (analyzeCornerPerformance eng cs n).2 = { eng with corner_data := cd } := by
  obtain ⟨cd, h⟩ := analyzeCornerFold_state n cs [] eng 0
  exact ⟨cd, by simpa [analyzeCornerPerformance] using h⟩

/-- `predict_tire_degradation` only writes `tire_degradation_history`. -/
theorem predictTireDegradation_state (eng : Engine) (n : ℕ) (cur : ℚ) :
    ∃ th, (predictTireDegradation eng n cur).2 =
      { eng with tire_degradation_history := th } := by
  simp only [predictTireDegradation]
  split_ifs <;> exact ⟨_, rfl⟩

/-- `detect_overtaking_zones` only writes `overtaking_opportunities`. -/
theorem detectOvertakingZones_state (eng : Engine) (l : List Sample) :
    ∃ z, (detectOvertakingZones eng l).2 = { eng with overtaking_opportunities := z } :=
  ⟨_, rfl⟩

/-- `calculate_driver_performance` only writes
`driver_performance_metrics`. -/
theorem calculateDriverPerformance_state (P : GeoPrims) (eng : Engine) (li : LapInfo) :
    ∃ dm, (calculateDriverPerformance P eng li).2 =
      { eng with driver_performance_metrics := dm } := by
  simp only [calculateDriverPerformance]
  split_ifs <;> exact ⟨_, rfl⟩

/-- `generate_race_strategy` only writes `race_strategy_log`. -/
theorem generateRaceStrategy_state (eng : Engine) (n t : ℕ) :
    ∃ lg, (generateRaceStrategy eng n t).2 = { eng with race_strategy_log := lg } := by
  simp only [generateRaceStrategy]
  split_ifs <;> exact ⟨_, rfl⟩

/-- `generate_race_strategy` with no completed lap or `lap_number < 2`
returns the `INSUFFICIENT_DATA` result and leaves the engine unchanged. -/
theorem generateRaceStrategy_insufficient (eng : Engine) (n t : ℕ)
    (h : eng.lap_history = [] ∨ n < 2) :
    generateRaceStrategy eng n t = (.insufficient, eng) := by
  simp only [generateRaceStrategy, if_pos h]

/-- `generate_race_strategy` with data appends exactly one record to
`race_strategy_log`. -/
theorem generateRaceStrategy_full (eng : Engine) (n t : ℕ)
    (h : ¬(eng.lap_history = [] ∨ n < 2)) :
    ∃ s, generateRaceStrategy eng n t =
      (.full s, { eng with race_strategy_log := eng.race_strategy_log ++ [s] }) := by
  simp only [generateRaceStrategy, if_neg h]
  exact ⟨_, rfl⟩

/-- `applyAutoDetect` in closed form. -/
theorem applyAutoDetect_spec (P : GeoPrims) (eng : Engine) (gps : List (ℚ × ℚ)) :
    applyAutoDetect P eng gps =
      { eng with sector_boundaries := boundariesAfter P eng gps } := by
  unfold applyAutoDetect boundariesAfter
  split_ifs with h
  · cases hd : autoDetectSectors P gps with
    | none => simp [← h]
    | some bnds => simp
  · rfl

/-! Projection corollaries of the frame lemmas, in rewrite-friendly
form. -/

theorem acp_lap_history (eng : Engine) (cs : List Corner) (n : ℕ) :
    ((analyzeCornerPerformance eng cs n).2).lap_history = eng.lap_history := by
  obtain ⟨cd, h⟩ := analyzeCornerPerformance_state eng cs n; rw [h]

theorem acp_optimal_lap (eng : Engine) (cs : List Corner) (n : ℕ) :
    ((analyzeCornerPerformance eng cs n).2).optimal_lap = eng.optimal_lap := by
  obtain ⟨cd, h⟩ := analyzeCornerPerformance_state eng cs n; rw [h]

theorem acp_sector_boundaries (eng : Engine) (cs : List Corner) (n : ℕ) :
    ((analyzeCornerPerformance eng cs n).2).sector_boundaries =
      eng.sector_boundaries := by
  obtain ⟨cd, h⟩ := analyzeCornerPerformance_state eng cs n; rw [h]

theorem ptd_lap_history (eng : Engine) (n : ℕ) (cur : ℚ) :
    ((predictTireDegradation eng n cur).2).lap_history = eng.lap_history := by
  obtain ⟨th, h⟩ := predictTireDegradation_state eng n cur; rw [h]

theorem ptd_optimal_lap (eng : Engine) (n : ℕ) (cur : ℚ) :
    ((predictTireDegradation eng n cur).2).optimal_lap = eng.optimal_lap := by
  obtain ⟨th, h⟩ := predictTireDegradation_state eng n cur; rw [h]

theorem ptd_sector_boundaries (eng : Engine) (n : ℕ) (cur : ℚ) :
    ((predictTireDegradation eng n cur).2).sector_boundaries =
      eng.sector_boundaries := by
  obtain ⟨th, h⟩ := predictTireDegradation_state eng n cur; rw [h]

theorem doz_lap_history (eng : Engine) (l : List Sample) :
    ((detectOvertakingZones eng l).2).lap_history = eng.lap_history := rfl

theorem doz_optimal_lap (eng : Engine) (l : List Sample) :
    ((detectOvertakingZones eng l).2).optimal_lap = eng.optimal_lap := rfl

theorem doz_sector_boundaries (eng : Engine) (l : List Sample) :
    ((detectOvertakingZones eng l).2).sector_boundaries = eng.sector_boundaries := rfl

theorem cdp_lap_history (P : GeoPrims) (eng : Engine) (li : LapInfo) :
    ((calculateDriverPerformance P eng li).2).lap_history = eng.lap_history := by
  obtain ⟨dm, h⟩ := calculateDriverPerformance_state P eng li; rw [h]

theorem cdp_optimal_lap (P : GeoPrims) (eng : Engine) (li : LapInfo) :
    ((calculateDriverPerformance P eng li).2).optimal_lap = eng.optimal_lap := by
  obtain ⟨dm, h⟩ := calculateDriverPerformance_state P eng li; rw [h]

theorem cdp_sector_boundaries (P : GeoPrims) (eng : Engine) (li : LapInfo) :
    ((calculateDriverPerformance P eng li).2).sector_boundaries =
      eng.sector_boundaries := by
  obtain ⟨dm, h⟩ := calculateDriverPerformance_state P eng li; rw [h]

theorem grs_lap_history (eng : Engine) (n t : ℕ) :
    ((generateRaceStrategy eng n t).2).lap_history = eng.lap_history := by
  obtain ⟨lg, h⟩ := generateRaceStrategy_state eng n t; rw [h]

theorem grs_optimal_lap (eng : Engine) (n t : ℕ) :
    ((generateRaceStrategy eng n t).2).optimal_lap = eng.optimal_lap := by
  obtain ⟨lg, h⟩ := generateRaceStrategy_state eng n t; rw [h]

theorem aad_lap_history (P : GeoPrims) (eng : Engine) (gps : List (ℚ × ℚ)) :
    (applyAutoDetect P eng gps).lap_history = eng.lap_history := by
  rw [applyAutoDetect_spec]

theorem aad_optimal_lap (P : GeoPrims) (eng : Engine) (gps : List (ℚ × ℚ)) :
    (applyAutoDetect P eng gps).optimal_lap = eng.optimal_lap := by
  rw [applyAutoDetect_spec]

theorem aad_sector_boundaries (P : GeoPrims) (eng : Engine) (gps : List (ℚ × ℚ)) :
    (applyAutoDetect P eng gps).sector_boundaries = boundariesAfter P eng gps := by
  rw [applyAutoDetect_spec]

set_option maxHeartbeats 2000000 in
/-- Characterization of a successful `process_lap` call: the produced
record's number, total time and sectors, and the resulting engine's
boundaries, history and optimal lap, in terms of the incoming state. -/
theorem processLap_char (P : GeoPrims) (eng : Engine) (l : List Sample)
    (hlen : ¬(l.length < 10)) :
    ∃ lap eng',
      processLap P eng l = (some lap, eng') ∧
      lap.lap_number = eng.lap_history.length + 1 ∧
      lap.total_time = l.getLastI.timestamp - l.headI.timestamp ∧
      lap.sectors = sectorTimes (boundariesAfter P eng (l.map (fun d => (d.lat, d.lon)))) l ∧
      eng'.sector_boundaries = boundariesAfter P eng (l.map (fun d => (d.lat, d.lon))) ∧
      eng'.lap_history = eng.lap_history ++ [lap] ∧
      eng'.optimal_lap = lap.sectors.foldl (updateOptimalStep lap.lap_number)
        eng.optimal_lap := by
  simp only [processLap, if_neg hlen]
  refine ⟨_, _, rfl, ?_, ?_, ?_, ?_, ?_, ?_⟩
  · simp [aad_lap_history]
  · rfl
  · simp [aad_sector_boundaries]
  · simp only [updateOptimalLap, apply_ite Prod.snd,
      apply_ite Engine.sector_boundaries, cdp_sector_boundaries,
      doz_sector_boundaries, ptd_sector_boundaries, acp_sector_boundaries,
      aad_sector_boundaries, ite_self]
  · simp only [updateOptimalLap, apply_ite Prod.snd, apply_ite Engine.lap_history,
      cdp_lap_history, doz_lap_history, ptd_lap_history, acp_lap_history,
      aad_lap_history, ite_self]
  · simp only [updateOptimalLap, apply_ite Prod.snd, apply_ite Engine.optimal_lap,
      apply_ite Engine.lap_history, cdp_optimal_lap, doz_optimal_lap,
      ptd_optimal_lap, acp_optimal_lap, aad_optimal_lap, cdp_lap_history,
      doz_lap_history, ptd_lap_history, acp_lap_history, aad_lap_history, ite_self]

/-! Claim C6. -/

/-- C6 as amended: `get_dashboard_data` never changes the buffer,
`lap_start_time`, `lap_history`, `optimal_lap`, `tire_degradation_history`
or `driver_performance_metrics`; with at most one completed lap the whole
state is unchanged, but with 2 or more completed laps the embedded
`generate_race_strategy` call appends one record to `race_strategy_log`,
so the query is not pure. -/
theorem c6_dashboard_strategy_log (P : GeoPrims) (st : ApiState) :
    (getDashboardData P st).2.current_lap_buffer = st.current_lap_buffer ∧
    (getDashboardData P st).2.lap_start_time = st.lap_start_time ∧
    (getDashboardData P st).2.engine.lap_history = st.engine.lap_history ∧
    (getDashboardData P st).2.engine.optimal_lap = st.engine.optimal_lap ∧
    (getDashboardData P st).2.engine.tire_degradation_history =
      st.engine.tire_degradation_history ∧
    (getDashboardData P st).2.engine.driver_performance_metrics =
      st.engine.driver_performance_metrics ∧
    (st.engine.lap_history.length < 2 → (getDashboardData P st).2 = st) ∧
    (2 ≤ st.engine.lap_history.length → ∃ s,
      (getDashboardData P st).2.engine.race_strategy_log =
        st.engine.race_strategy_log ++ [s]) := by
  by_cases h0 : st.engine.lap_history = []
  · simp [getDashboardData, h0]
  · by_cases h2 : st.engine.lap_history.length < 2
    · have hins := generateRaceStrategy_insufficient st.engine
        st.engine.lap_history.length st.race_total_laps (Or.inr h2)
      simp [getDashboardData, h0, hins, h2]
    · obtain ⟨s, hs⟩ := generateRaceStrategy_full st.engine
        st.engine.lap_history.length st.race_total_laps (by
          push_neg
          exact ⟨h0, by omega⟩)
      simp only [getDashboardData, if_pos h0]
      rw [hs]
      refine ⟨?_, ?_, ?_, ?_, ?_, ?_, fun hlt => absurd hlt h2,
        fun _ => ⟨s, rfl⟩⟩ <;> simp

/-- An API state holding two completed laps. -/
def stTwoLaps : ApiState :=
  { engine := { emptyEngine with lap_history := [mkLap 1 60 50, mkLap 2 61 50] },
    current_lap_buffer := [], lap_start_time := some 0, race_total_laps := 20 }

/-- C6 counterexample: on a state with two completed laps,
`get_dashboard_data` grows `race_strategy_log` from 0 to 1 records — the
engine state is not left unchanged. -/
theorem c6_counterexample :
    (getDashboardData P0 stTwoLaps).2.engine.race_strategy_log.length = 1 ∧
    stTwoLaps.engine.race_strategy_log.length = 0 ∧
    ¬((getDashboardData P0 stTwoLaps).2 = stTwoLaps) := by
  have h0 : stTwoLaps.engine.lap_history ≠ [] := by simp [stTwoLaps, emptyEngine]
  obtain ⟨s, hs⟩ := generateRaceStrategy_full stTwoLaps.engine
    stTwoLaps.engine.lap_history.length stTwoLaps.race_total_laps (by
      push_neg
      refine ⟨h0, ?_⟩
      simp [stTwoLaps, emptyEngine])
  have hlog : (getDashboardData P0 stTwoLaps).2.engine.race_strategy_log =
      stTwoLaps.engine.race_strategy_log ++ [s] := by
    simp only [getDashboardData, if_pos h0]
    rw [hs]
  refine ⟨?_, by simp [stTwoLaps, emptyEngine], ?_⟩
  · rw [hlog]
    simp [stTwoLaps, emptyEngine]
  · intro heq
    have hlen2 : (getDashboardData P0 stTwoLaps).2.engine.race_strategy_log.length =
        stTwoLaps.engine.race_strategy_log.length := by rw [heq]
    rw [hlog] at hlen2
    simp [stTwoLaps, emptyEngine] at hlen2

/-! Claim C1. -/

/-- The boundary branch of `process_telemetry_point`: when the detector
fires with a non-empty buffer of at least 10 samples, the buffer is
finalized by `process_lap`, a strategy is generated, and the call returns
with an empty buffer and an otherwise unchanged API state — in particular
`lap_start_time` is not touched and the triggering sample is dropped. -/
theorem processTelemetryPoint_boundary (P : GeoPrims) (st : ApiState) (s : Sample)
    (hf : shouldStartNewLap P st s = true) (hne : st.current_lap_buffer ≠ [])
    (hlen : ¬(st.current_lap_buffer.length < 10)) :
    ∃ lap eng1,
      processLap P st.engine st.current_lap_buffer = (some lap, eng1) ∧
      processTelemetryPoint P st s = .ok (.lapCompleted lap
        (generateRaceStrategy eng1 lap.lap_number st.race_total_laps).1,
        { st with
            engine := (generateRaceStrategy eng1 lap.lap_number st.race_total_laps).2
            current_lap_buffer := [] }) := by
  obtain ⟨lap, eng1, hpl, _, _, _, _, _, _⟩ := processLap_char P st.engine
    st.current_lap_buffer hlen
  refine ⟨lap, eng1, hpl, ?_⟩
  simp only [processTelemetryPoint]
  rw [if_pos (And.intro hf hne), hpl]

/-- Bounds extracted from a detector firing on a non-empty buffer whose
`lap_start_time` is a genuine (non-zero) timestamp: at least 50 samples
are buffered and the incoming sample is within 20 m of the start. -/
theorem shouldStart_nonfalsy_bounds (P : GeoPrims) (st : ApiState) (s : Sample)
    (t : ℚ) (ht : st.lap_start_time = some t) (ht0 : t ≠ 0)
    (hne : st.current_lap_buffer ≠ [])
    (hf : shouldStartNewLap P st s = true) :
    50 ≤ st.current_lap_buffer.length ∧
    P.haversine st.current_lap_buffer.headI.lat st.current_lap_buffer.headI.lon
      s.lat s.lon < 20 := by
  have hcond : ¬(st.current_lap_buffer = [] ∨ falsyTime st.lap_start_time = true) := by
    rw [ht]
    simp [falsyTime, ht0, hne]
  rw [shouldStartNewLap, if_neg hcond] at hf
  simp only [] at hf
  by_cases h1 : st.current_lap_buffer.length < 50
  · rw [if_pos h1] at hf
    exact absurd hf (by simp)
  · rw [if_neg h1] at hf
    by_cases h2 : P.haversine st.current_lap_buffer.headI.lat
        st.current_lap_buffer.headI.lon s.lat s.lon < 20
    · exact ⟨by omega, h2⟩
    · rw [if_neg h2] at hf
      exact absurd hf (by simp)

/-- C1 as amended: when the detector fires on sample `s` with a non-empty
buffer and a non-falsy `lap_start_time`, the buffer (not including `s`) is
finalized into a LapRecord appended to `lap_history`; but `s` does not
seed the next buffer — the buffer is reset to empty and `s` is dropped —
and `lap_start_time` is left unchanged by this call (the next processed
sample seeds the new buffer and sets `lap_start_time`). -/
theorem c1_boundary_drops_trigger (P : GeoPrims) (st : ApiState) (s : Sample)
    (t : ℚ) (ht : st.lap_start_time = some t) (ht0 : t ≠ 0)
    (hne : st.current_lap_buffer ≠ [])
    (hf : shouldStartNewLap P st s = true) :
    ∃ lap strat st',
      processTelemetryPoint P st s = .ok (.lapCompleted lap strat, st') ∧
      (processLap P st.engine st.current_lap_buffer).1 = some lap ∧
      st'.engine.lap_history = st.engine.lap_history ++ [lap] ∧
      lap.lap_number = st.engine.lap_history.length + 1 ∧
      st'.current_lap_buffer = [] ∧
      st'.lap_start_time = st.lap_start_time := by
  obtain ⟨h50, hdist⟩ := shouldStart_nonfalsy_bounds P st s t ht ht0 hne hf
  have hlen : ¬(st.current_lap_buffer.length < 10) := by omega
  obtain ⟨lap, eng1, hpl, hnum, _, _, _, hhist, _⟩ := processLap_char P st.engine
    st.current_lap_buffer hlen
  refine ⟨lap, (generateRaceStrategy eng1 lap.lap_number st.race_total_laps).1,
    { st with
        engine := (generateRaceStrategy eng1 lap.lap_number st.race_total_laps).2
        current_lap_buffer := [] },
    ?_, by rw [hpl], ?_, hnum, rfl, rfl⟩
  · simp only [processTelemetryPoint]
    rw [if_pos (And.intro hf hne), hpl]
  · simp only [grs_lap_history, hhist]

/-- A buffer of 50 samples at the start position with timestamps 5..54. -/
def lap50 : List Sample :=
  (List.range 50).map (fun (i : ℕ) =>
    { timestamp := (i : ℚ) + 5, lat := 0, lon := 0, speed := 0 })

/-- The reachable API state after ingesting the 50 samples of `lap50` from
a fresh state: full buffer, `lap_start_time = 5`. -/
def c1State : ApiState :=
  { engine := emptyEngine, current_lap_buffer := lap50, lap_start_time := some 5,
    race_total_laps := 20 }

/-- The sample that closes the lap: back at the start position. -/
def c1Trigger : Sample := { timestamp := 60, lat := 0, lon := 0, speed := 0 }

theorem c1State_buffer_length : c1State.current_lap_buffer.length = 50 := by
  show lap50.length = 50
  rw [lap50, List.length_map, List.length_range]

theorem c1State_buffer_ne : c1State.current_lap_buffer ≠ [] := by
  intro h
  have := c1State_buffer_length
  rw [h] at this
  simp at this

theorem c1State_buffer_headI : c1State.current_lap_buffer.headI =
    { timestamp := 5, lat := 0, lon := 0, speed := 0 } := by
  show lap50.headI = _
  rw [lap50, show (50 : ℕ) = 49 + 1 from rfl, List.range_succ_eq_map]
  simp

theorem c1State_detector_fires : shouldStartNewLap P0 c1State c1Trigger = true := by
  have hfal : falsyTime c1State.lap_start_time = false := by
    show falsyTime (some 5) = false
    simp only [falsyTime, beq_eq_false_iff_ne]
    norm_num
  rw [shouldStartNewLap]
  rw [if_neg (by simp [hfal, c1State_buffer_ne])]
  rw [if_neg (by rw [c1State_buffer_length]; omega)]
  rw [c1State_buffer_headI]
  norm_num [P0, c1Trigger]

/-- Witness for the amended C1 at the reachable 50-sample state. -/
theorem c1_boundary_drops_trigger_witness :
    c1State.lap_start_time = some 5 ∧ (5 : ℚ) ≠ 0 ∧
    c1State.current_lap_buffer ≠ [] ∧
    shouldStartNewLap P0 c1State c1Trigger = true ∧
    (∃ lap strat st',
      processTelemetryPoint P0 c1State c1Trigger = .ok (.lapCompleted lap strat, st') ∧
      (processLap P0 c1State.engine c1State.current_lap_buffer).1 = some lap ∧
      st'.engine.lap_history = c1State.engine.lap_history ++ [lap] ∧
      lap.lap_number = c1State.engine.lap_history.length + 1 ∧
      st'.current_lap_buffer = [] ∧
      st'.lap_start_time = c1State.lap_start_time) :=
  ⟨rfl, by norm_num, c1State_buffer_ne, c1State_detector_fires,
   c1_boundary_drops_trigger P0 c1State c1Trigger 5 rfl (by norm_num)
     c1State_buffer_ne c1State_detector_fires⟩

/-- C1 counterexample: at the reachable 50-sample state the detector fires
on `c1Trigger`, the buffer is non-empty, yet the resulting state has an
empty buffer (the triggering sample does not seed the next lap) and
`lap_start_time` still 5, not the trigger's timestamp 60. -/
theorem c1_counterexample :
    shouldStartNewLap P0 c1State c1Trigger = true ∧
    c1State.current_lap_buffer ≠ [] ∧
    (processTelemetryPoint P0 c1State c1Trigger).toOption.map
      (fun p => (p.2.current_lap_buffer, p.2.lap_start_time)) =
      some (([] : List Sample), some (5 : ℚ)) ∧
    ¬(([] : List Sample) = [c1Trigger] ∧ some (5 : ℚ) = some c1Trigger.timestamp) := by
  refine ⟨c1State_detector_fires, c1State_buffer_ne, ?_, ?_⟩
  · obtain ⟨lap, eng1, hpl, hres⟩ := processTelemetryPoint_boundary P0 c1State
      c1Trigger c1State_detector_fires c1State_buffer_ne
      (by rw [c1State_buffer_length]; omega)
    rw [hres]
    rfl
  · intro hc
    have := hc.1
    simp at this

/-! Claim C7: association-list lemmas for the optimal-lap store. -/

theorem dictGet_mem {α : Type} {d : List (ℕ × α)} {k : ℕ} {v : α}
    (h : dictGet d k = some v) : (k, v) ∈ d := by
  unfold dictGet at h
  cases hf : d.find? (fun p => p.1 == k) with
  | none => rw [hf] at h; simp at h
  | some p =>
    rw [hf] at h
    have hmem := List.mem_of_find?_eq_some hf
    have hk : p.1 = k := by simpa using List.find?_some hf
    have hv : p.2 = v := by simpa using h
    rw [← hk, ← hv]
    exact hmem

theorem dictGet_dictSet_self {α : Type} (d : List (ℕ × α)) (k : ℕ) (v : α) :
    dictGet (dictSet d k v) k = some v := by
  unfold dictSet
  split_ifs with h
  · unfold dictGet
    rw [List.find?_map]
    have hfun : ((fun (p : ℕ × α) => p.1 == k) ∘
        (fun p => if p.1 == k then (k, v) else p)) = (fun (p : ℕ × α) => p.1 == k) := by
      funext p
      by_cases hp : p.1 = k
      · simp [Function.comp, hp]
      · simp [Function.comp, hp]
    rw [hfun]
    cases hf : d.find? (fun p => p.1 == k) with
    | none => rw [hf] at h; simp at h
    | some q =>
      have hk : (q.1 == k) = true := by
        have h2 := List.find?_some hf
        simpa using h2
      have hq : q.1 = k := by simpa using hk
      simp [hf, hq]
  · unfold dictGet
    have hnone : d.find? (fun p => p.1 == k) = none := by
      cases hf : d.find? (fun p => p.1 == k) with
      | none => rfl
      | some p => rw [hf] at h; simp at h
    rw [List.find?_append, hnone]
    rw [List.find?_cons_of_pos _ (by simp)]
    rfl

theorem dictGet_dictSet_ne {α : Type} (d : List (ℕ × α)) (k k' : ℕ) (v : α)
    (hne : k' ≠ k) : dictGet (dictSet d k v) k' = dictGet d k' := by
  unfold dictSet
  split_ifs with h
  · unfold dictGet
    rw [List.find?_map]
    have hfun : ((fun (p : ℕ × α) => p.1 == k') ∘
        (fun p => if p.1 == k then (k, v) else p)) = (fun (p : ℕ × α) => p.1 == k') := by
      funext p
      by_cases hp : p.1 = k
      · have h1 : (k == k') = false := by simpa using (Ne.symm hne)
        simp [Function.comp, hp, h1]
      · simp [Function.comp, hp]
    rw [hfun]
    cases hf : d.find? (fun p => p.1 == k') with
    | none => rfl
    | some q =>
      have hk' : q.1 = k' := by simpa using List.find?_some hf
      simp [hf, hk', hne]
  · unfold dictGet
    rw [List.find?_append]
    cases hf : d.find? (fun p => p.1 == k') with
    | none =>
      rw [List.find?_cons_of_neg _ (by simpa using (Ne.symm hne))]
      rfl
    | some q => rfl

/-- The optimal entry built from a sector record by
`update_optimal_lap`. -/
def mkOptEntry (n : ℕ) (p : ℕ × SectorData) : OptimalEntry :=
  { time := p.2.time, data := p.2.data, lap_number := n,
    avg_speed := p.2.avg_speed, max_speed := p.2.max_speed }

/-- The step replaces the entry when it beats the stored time (or none is
stored). -/
theorem step_guard_true (n : ℕ) (opt : List (ℕ × OptimalEntry)) (p : ℕ × SectorData)
    (hg : ∀ e, dictGet opt p.1 = some e → p.2.time < e.time) :
    updateOptimalStep n opt p = dictSet opt p.1 (mkOptEntry n p) := by
  simp only [updateOptimalStep]
  cases hd : dictGet opt p.1 with
  | none => dsimp only; rw [if_pos rfl]; rfl
  | some e => dsimp only; rw [decide_eq_true (hg e hd), if_pos rfl]; rfl

/-- The step keeps the store when the stored time is at least as good. -/
theorem step_guard_false (n : ℕ) (opt : List (ℕ × OptimalEntry)) (p : ℕ × SectorData)
    (e : OptimalEntry) (hd : dictGet opt p.1 = some e) (hnlt : ¬p.2.time < e.time) :
    updateOptimalStep n opt p = opt := by
  simp only [updateOptimalStep, hd]
  rw [decide_eq_false hnlt, if_neg Bool.false_ne_true]

/-- Entries only persist with non-increasing time through one step. -/
theorem step_le (n : ℕ) (opt : List (ℕ × OptimalEntry)) (p : ℕ × SectorData)
    (k : ℕ) (e0 : OptimalEntry) (h : dictGet opt k = some e0) :
    ∃ e, dictGet (updateOptimalStep n opt p) k = some e ∧ e.time ≤ e0.time := by
  by_cases hk : p.1 = k
  · cases hd : dictGet opt p.1 with
    | none => rw [hk, h] at hd; exact absurd hd (by simp)
    | some e1 =>
      have he1 : e1 = e0 := by
        rw [hk, h] at hd
        exact (Option.some_inj.1 hd).symm
      subst he1
      by_cases hlt : p.2.time < e1.time
      · rw [step_guard_true n opt p (fun e he => by rw [hd] at he; injection he with hh; subst hh; exact hlt)]
        rw [← hk]
        exact ⟨mkOptEntry n p, dictGet_dictSet_self opt p.1 _, le_of_lt hlt⟩
      · rw [step_guard_false n opt p e1 hd hlt]
        exact ⟨e1, by rw [← hk]; exact hd, le_refl _⟩
  · have hfr : dictGet (updateOptimalStep n opt p) k = dictGet opt k := by
      cases hd : dictGet opt p.1 with
      | none =>
        rw [step_guard_true n opt p (fun e he => absurd (hd ▸ he) (by simp))]
        exact dictGet_dictSet_ne opt p.1 k _ (fun hx => hk hx.symm)
      | some e1 =>
        by_cases hlt : p.2.time < e1.time
        · rw [step_guard_true n opt p (fun e he => by rw [hd] at he; injection he with hh; subst hh; exact hlt)]
          exact dictGet_dictSet_ne opt p.1 k _ (fun hx => hk hx.symm)
        · rw [step_guard_false n opt p e1 hd hlt]
    exact ⟨e0, by rw [hfr]; exact h, le_refl _⟩

/-- Entries persist with non-increasing time through the fold. -/
theorem fold_le (n : ℕ) (l : List (ℕ × SectorData)) :
    ∀ (opt : List (ℕ × OptimalEntry)) (k : ℕ) (e0 : OptimalEntry),
      dictGet opt k = some e0 →
      ∃ e, dictGet (l.foldl (updateOptimalStep n) opt) k = some e ∧
        e.time ≤ e0.time := by
  induction l with
  | nil => exact fun opt k e0 h => ⟨e0, h, le_refl _⟩
  | cons p l ih =>
    intro opt k e0 h
    obtain ⟨e1, h1, hle1⟩ := step_le n opt p k e0 h
    obtain ⟨e2, h2, hle2⟩ := ih (updateOptimalStep n opt p) k e1 h1
    exact ⟨e2, by simpa using h2, le_trans hle2 hle1⟩

/-- A key occurring in the fold input ends with time at most its sector
time. -/
theorem fold_new (n : ℕ) (l : List (ℕ × SectorData)) :
    ∀ (opt : List (ℕ × OptimalEntry)) (k : ℕ) (sd : SectorData),
      (k, sd) ∈ l →
      ∃ e, dictGet (l.foldl (updateOptimalStep n) opt) k = some e ∧
        e.time ≤ sd.time := by
  induction l with
  | nil => intro opt k sd h; simp at h
  | cons p l ih =>
    intro opt k sd hmem
    rcases List.mem_cons.1 hmem with heq | htail
    · subst heq
      have hstep : ∃ e1, dictGet (updateOptimalStep n opt (k, sd)) k = some e1 ∧
          e1.time ≤ sd.time := by
        cases hd : dictGet opt k with
        | none =>
          rw [step_guard_true n opt (k, sd) (fun e he => absurd (hd ▸ he) (by simp))]
          exact ⟨mkOptEntry n (k, sd), dictGet_dictSet_self opt k _, le_refl _⟩
        | some e0 =>
          by_cases hlt : sd.time < e0.time
          · rw [step_guard_true n opt (k, sd) (fun e he => by rw [hd] at he; injection he with hh; subst hh; exact hlt)]
            exact ⟨mkOptEntry n (k, sd), dictGet_dictSet_self opt k _, le_refl _⟩
          · rw [step_guard_false n opt (k, sd) e0 hd hlt]
            exact ⟨e0, hd, le_of_not_lt hlt⟩
      obtain ⟨e1, h1, hle1⟩ := hstep
      obtain ⟨e2, h2, hle2⟩ := fold_le n l (updateOptimalStep n opt (k, sd)) k e1 h1
      exact ⟨e2, by simpa using h2, le_trans hle2 hle1⟩
    · obtain ⟨e, he, hle⟩ := ih (updateOptimalStep n opt p) k sd htail
      exact ⟨e, by simpa using he, hle⟩

/-- An entry changes over the fold only if the input list carries the key
with a strictly smaller time than any stored entry. -/
theorem fold_frame (n : ℕ) (l : List (ℕ × SectorData)) :
    ∀ (opt : List (ℕ × OptimalEntry)) (k : ℕ),
      dictGet (l.foldl (updateOptimalStep n) opt) k ≠ dictGet opt k →
      ∃ sd, (k, sd) ∈ l ∧
        (∀ e0, dictGet opt k = some e0 → sd.time < e0.time) := by
  induction l with
  | nil => intro opt k h; simp at h
  | cons p l ih =>
    intro opt k h
    rw [List.foldl_cons] at h
    by_cases hc : dictGet (updateOptimalStep n opt p) k = dictGet opt k
    · have h2 : dictGet (l.foldl (updateOptimalStep n) (updateOptimalStep n opt p)) k ≠
          dictGet (updateOptimalStep n opt p) k := by
        rw [hc]
        exact h
      obtain ⟨sd, hmem, hprop⟩ := ih (updateOptimalStep n opt p) k h2
      exact ⟨sd, List.mem_cons_of_mem p hmem,
        fun e0 he0 => hprop e0 (by rw [hc]; exact he0)⟩
    · have hk : p.1 = k := by
        by_contra hne
        apply hc
        cases hd : dictGet opt p.1 with
        | none =>
          rw [step_guard_true n opt p (fun e he => absurd (hd ▸ he) (by simp))]
          exact dictGet_dictSet_ne opt p.1 k _ (fun hx => hne hx.symm)
        | some e1 =>
          by_cases hlt : p.2.time < e1.time
          · rw [step_guard_true n opt p (fun e he => by rw [hd] at he; injection he with hh; subst hh; exact hlt)]
            exact dictGet_dictSet_ne opt p.1 k _ (fun hx => hne hx.symm)
          · rw [step_guard_false n opt p e1 hd hlt]
      refine ⟨p.2, ?_, ?_⟩
      · have hpe : (k, p.2) = p := by rw [← hk]
        rw [hpe]
        exact List.mem_cons_self p l
      · intro e0 he0
        by_contra hnlt
        exact hc (by rw [step_guard_false n opt p e0 (by rw [hk]; exact he0) hnlt])

/-- The optimal-lap invariant: every sector of every completed lap has an
optimal entry whose time is at most that lap's sector time.  (The engine
establishes it vacuously at start and `process_lap` preserves it.) -/
def OptimalInv (eng : Engine) : Prop :=
  ∀ lap ∈ eng.lap_history, ∀ k sd, dictGet lap.sectors k = some sd →
    ∃ e, dictGet eng.optimal_lap k = some e ∧ e.time ≤ sd.time

/-- The claim's reading of the invariant follows from `OptimalInv` by
uniqueness of lookup. -/
theorem optimalInv_dominates {eng : Engine} (h : OptimalInv eng) :
    ∀ k e, dictGet eng.optimal_lap k = some e →
      ∀ lap ∈ eng.lap_history, ∀ sd, dictGet lap.sectors k = some sd →
        e.time ≤ sd.time := by
  intro k e he lap hlap sd hsd
  obtain ⟨e', he', hle⟩ := h lap hlap k sd hsd
  rw [he] at he'
  injection he' with hh
  rw [hh]
  exact hle

/-- A fresh engine satisfies the optimal-lap invariant vacuously. -/
theorem optimalInv_empty : OptimalInv emptyEngine := by
  intro lap hlap
  simp [emptyEngine] at hlap

/-- C7: `process_lap` preserves the optimal-lap invariant, so every
optimal entry's time is a lower bound on the corresponding sector time of
every completed lap in history; and an optimal entry changes only when
the newly processed lap carries that sector with a strictly smaller time
than the stored one (a missing entry counting as infinity). -/
theorem c7_optimal_lower_bound_and_strict_improvement (P : GeoPrims)
    (eng : Engine) (l : List Sample) (hInv : OptimalInv eng) :
    OptimalInv (processLap P eng l).2 ∧
    (∀ k e, dictGet ((processLap P eng l).2).optimal_lap k = some e →
      ∀ lap ∈ ((processLap P eng l).2).lap_history, ∀ sd,
        dictGet lap.sectors k = some sd → e.time ≤ sd.time) ∧
    (∀ k, dictGet ((processLap P eng l).2).optimal_lap k ≠
        dictGet eng.optimal_lap k →
      ∃ lap' sd, (processLap P eng l).1 = some lap' ∧ (k, sd) ∈ lap'.sectors ∧
        ∀ e0, dictGet eng.optimal_lap k = some e0 → sd.time < e0.time) := by
  by_cases hlen : l.length < 10
  · have heq : processLap P eng l = (none, eng) := by
      simp [processLap, hlen]
    rw [heq]
    exact ⟨hInv, optimalInv_dominates hInv, fun k hk => absurd rfl hk⟩
  · obtain ⟨lap, eng', hpl, hnum, htt, hsec, hbnd, hhist, hopt⟩ :=
      processLap_char P eng l hlen
    rw [hpl]
    have hInv' : OptimalInv eng' := by
      intro lap' hlap' k sd hsd
      rw [hhist] at hlap'
      rw [hopt]
      rcases List.mem_append.1 hlap' with hold | hnew
      · obtain ⟨e0, he0, hle0⟩ := hInv lap' hold k sd hsd
        obtain ⟨e, he, hle⟩ := fold_le lap.lap_number lap.sectors eng.optimal_lap
          k e0 he0
        exact ⟨e, he, le_trans hle hle0⟩
      · have hl : lap' = lap := by simpa using hnew
        rw [hl] at hsd
        exact fold_new lap.lap_number lap.sectors eng.optimal_lap k sd
          (dictGet_mem hsd)
    refine ⟨hInv', optimalInv_dominates hInv', ?_⟩
    intro k hk
    simp only at hk
    rw [hopt] at hk
    obtain ⟨sd, hmem, hprop⟩ := fold_frame lap.lap_number lap.sectors
      eng.optimal_lap k hk
    exact ⟨lap, sd, rfl, hmem, hprop⟩

/-- Witness for C7 at a fresh engine and the concrete 50-sample lap. -/
theorem c7_optimal_lower_bound_witness :
    OptimalInv emptyEngine ∧
    (OptimalInv (processLap P0 emptyEngine lap50).2 ∧
     (∀ k e, dictGet ((processLap P0 emptyEngine lap50).2).optimal_lap k = some e →
       ∀ lap ∈ ((processLap P0 emptyEngine lap50).2).lap_history, ∀ sd,
         dictGet lap.sectors k = some sd → e.time ≤ sd.time) ∧
     (∀ k, dictGet ((processLap P0 emptyEngine lap50).2).optimal_lap k ≠
         dictGet emptyEngine.optimal_lap k →
       ∃ lap' sd, (processLap P0 emptyEngine lap50).1 = some lap' ∧
         (k, sd) ∈ lap'.sectors ∧
         ∀ e0, dictGet emptyEngine.optimal_lap k = some e0 → sd.time < e0.time)) :=
  ⟨optimalInv_empty,
   c7_optimal_lower_bound_and_strict_improvement P0 emptyEngine lap50 optimalInv_empty⟩

/-! Claim C8: the sector auto-detection boundaries. -/

/-- Cumulative distance through segment `i` (the loop's accumulator after
consuming `distances[i]`), i.e. the cumulative inter-sample distance of
sample `i + 1`. -/
def cumThrough (dists : List ℚ) (i : ℕ) : ℚ := ((dists.take (i + 1))).sum

/-- First index at or after the scan position whose cumulative sum reaches
the threshold, with the accumulator and remaining list at that point. -/
def firstHit (thr : ℚ) : List ℚ → ℕ → ℚ → Option (ℕ × ℚ × List ℚ)
  | [], _, _ => none
  | d :: rest, i, cum =>
    let cum' := cum + d
    if thr ≤ cum' then some (i, cum', rest) else firstHit thr rest (i + 1) cum'

/-- 31 collinear GPS points one metre apart (under `P0`): the concrete
first lap used to separate the code's boundaries from the claimed ones. -/
def gps31 : List (ℚ × ℚ) := [((0 : ℚ), 0), ((1 : ℚ), 0), ((2 : ℚ), 0), ((3 : ℚ), 0), ((4 : ℚ), 0), ((5 : ℚ), 0), ((6 : ℚ), 0), ((7 : ℚ), 0), ((8 : ℚ), 0), ((9 : ℚ), 0), ((10 : ℚ), 0), ((11 : ℚ), 0), ((12 : ℚ), 0), ((13 : ℚ), 0), ((14 : ℚ), 0), ((15 : ℚ), 0), ((16 : ℚ), 0), ((17 : ℚ), 0), ((18 : ℚ), 0), ((19 : ℚ), 0), ((20 : ℚ), 0), ((21 : ℚ), 0), ((22 : ℚ), 0), ((23 : ℚ), 0), ((24 : ℚ), 0), ((25 : ℚ), 0), ((26 : ℚ), 0), ((27 : ℚ), 0), ((28 : ℚ), 0), ((29 : ℚ), 0), ((30 : ℚ), 0)]

/-- Once three boundaries exist the accumulation loop appends nothing. -/

theorem detectLoop_full (L : ℚ) (bs : List ℕ) (h : bs.length = 3) :
    ∀ (ds : List ℚ) (i : ℕ) (cum : ℚ), detectLoop L 3 ds i cum bs = bs := by
  intro ds
  induction ds with
  | nil => intro i cum; rfl
  | cons d rest ih =>
    intro i cum
    rw [detectLoop]
    rw [if_neg (by rw [h]; simp)]
    exact ih (i + 1) (cum + d)


/-- With fewer than three boundaries, the loop runs to the first index
whose cumulative sum reaches `sectorLen * len(boundaries)`, appends it,
and continues from there. -/

theorem detectLoop_phase (L : ℚ) (bs : List ℕ) (h3 : bs.length < 3) :
    ∀ (ds : List ℚ) (i : ℕ) (cum : ℚ),
      detectLoop L 3 ds i cum bs =
        match firstHit (L * bs.length) ds i cum with
        | none => bs
        | some (j, cumj, rest) => detectLoop L 3 rest (j + 1) cumj (bs ++ [j]) := by
  intro ds
  induction ds with
  | nil => intro i cum; rfl
  | cons d rest ih =>
    intro i cum
    rw [detectLoop, firstHit]
    by_cases hc : L * bs.length ≤ cum + d
    · rw [if_pos ⟨hc, h3⟩]
      simp only [hc, if_pos]
    · rw [if_neg (by intro hx; exact hc hx.1)]
      rw [if_neg hc]
      exact ih (i + 1) (cum + d)


/-- `firstHit` from scan position `s` is the `find?` of the cumulative
threshold test over the remaining indices. -/

theorem firstHit_eq (thr : ℚ) (dists : List ℚ) :
    ∀ (k s : ℕ), s + k = dists.length →
      firstHit thr (dists.drop s) s ((dists.take s).sum) =
        ((List.range' s k).find? (fun j => decide (thr ≤ cumThrough dists j))).map
          (fun j => (j, cumThrough dists j, dists.drop (j + 1))) := by
  intro k
  induction k with
  | zero =>
    intro s hs
    have hdrop : dists.drop s = [] := by
      apply List.drop_eq_nil_of_le
      omega
    rw [hdrop]
    rfl
  | succ k ih =>
    intro s hs
    have hlt : s < dists.length := by omega
    have hdrop : dists.drop s = dists.get ⟨s, hlt⟩ :: dists.drop (s + 1) := by
      rw [List.drop_eq_getElem_cons hlt]
      rfl
    have hsum : (dists.take s).sum + dists.get ⟨s, hlt⟩ = cumThrough dists s := by
      simp only [cumThrough, List.take_succ, List.sum_append]
      simp [List.getElem?_eq_getElem hlt]
    rw [hdrop, firstHit]
    have hrange : List.range' s (k + 1) = s :: List.range' (s + 1) k := by
      rw [List.range'_succ]
    rw [hrange]
    by_cases hc : thr ≤ cumThrough dists s
    · rw [if_pos (by rw [hsum]; exact hc)]
      rw [List.find?_cons_of_pos _ (by exact decide_eq_true hc)]
      rw [hsum]
      rfl
    · rw [if_neg (by rw [hsum]; exact hc)]
      rw [List.find?_cons_of_neg _ (by simp [hc])]
      rw [hsum]
      exact ih (s + 1) (by omega)


/-- `N` GPS points yield `N - 1` consecutive distances. -/

theorem pairDists_length (P : GeoPrims) :
    ∀ (gps : List (ℚ × ℚ)), (pairDists P gps).length = gps.length - 1 := by
  intro gps
  induction gps with
  | nil => rfl
  | cons a rest ih =>
    cases rest with
    | nil => rfl
    | cons b rest2 =>
      rw [pairDists]
      simp only [List.length_cons]
      rw [ih]
      simp


/-- Characterization of `auto_detect_sectors`: the two interior boundaries
are the `find?` results of the cumulative-distance threshold tests over
the *distance-list* indices, the second search starting only after the
first hit. -/

theorem autoDetectSectors_char (P : GeoPrims) (gps : List (ℚ × ℚ)) (b1 b2 : ℕ)
    (hN : ¬ gps.length < 3 * 10)
    (hb1 : ((List.range' 0 (pairDists P gps).length).find?
        (fun j => decide ((pairDists P gps).sum / 3 ≤ cumThrough (pairDists P gps) j)))
      = some b1)
    (hb2 : ((List.range' (b1 + 1) ((pairDists P gps).length - (b1 + 1))).find?
        (fun j => decide ((pairDists P gps).sum / 3 * 2 ≤ cumThrough (pairDists P gps) j)))
      = some b2) :
    autoDetectSectors P gps = some [0, b1, b2, gps.length - 1] := by
  have hb1lt : b1 < (pairDists P gps).length := by
    have h := List.mem_range'_1.mp (List.mem_of_find?_eq_some hb1)
    omega
  have hb2lt : b2 < (pairDists P gps).length := by
    have h := List.mem_range'_1.mp (List.mem_of_find?_eq_some hb2)
    omega
  rw [autoDetectSectors, if_neg hN]
  show some (detectLoop ((pairDists P gps).sum / ((3 : ℕ) : ℚ)) 3 (pairDists P gps) 0 0 [0]
      ++ [gps.length - 1]) = some [0, b1, b2, gps.length - 1]
  rw [detectLoop_phase _ [0] (by simp)]
  have h1 := firstHit_eq
    ((pairDists P gps).sum / ((3 : ℕ) : ℚ) * (([0] : List ℕ).length : ℚ))
    (pairDists P gps) (pairDists P gps).length 0 (by omega)
  simp only [List.drop_zero, List.take_zero, List.sum_nil] at h1
  rw [h1]
  have hp1 : (fun j => decide ((pairDists P gps).sum / ((3 : ℕ) : ℚ) *
        (([0] : List ℕ).length : ℚ) ≤ cumThrough (pairDists P gps) j))
      = (fun j => decide ((pairDists P gps).sum / 3 ≤ cumThrough (pairDists P gps) j)) := by
    funext j
    norm_num
  rw [hp1, hb1]
  simp only [Option.map_some']
  rw [detectLoop_phase _ ([0] ++ [b1]) (by simp)]
  have h2 := firstHit_eq
    ((pairDists P gps).sum / ((3 : ℕ) : ℚ) * ((([0] ++ [b1] : List ℕ)).length : ℚ))
    (pairDists P gps) ((pairDists P gps).length - (b1 + 1)) (b1 + 1) (by omega)
  simp only [cumThrough]
  rw [h2]
  have hp2 : (fun j => decide ((pairDists P gps).sum / ((3 : ℕ) : ℚ) *
        ((([0] ++ [b1] : List ℕ)).length : ℚ) ≤ cumThrough (pairDists P gps) j))
      = (fun j => decide ((pairDists P gps).sum / 3 * 2 ≤ cumThrough (pairDists P gps) j)) := by
    funext j
    norm_num
  rw [hp2, hb2]
  simp only [Option.map_some']
  rw [detectLoop_full _ (([0] ++ [b1]) ++ [b2]) (by simp)]
  simp


/-- Shifting a first-hit over distance indices to sample indices: sample
index `j + 1` has cumulative distance `cumThrough j`, and sample `0` has
cumulative distance `0`, so the first sample index whose cumulative
distance reaches a positive threshold is one more than the first distance
index whose running sum reaches it. -/

theorem boundary_shift (P : GeoPrims) (gps : List (ℚ × ℚ)) (b1 : ℕ) (thr : ℚ)
    (hne : gps ≠ [])
    (hpos : ¬ thr ≤ 0)
    (hb1 : ((List.range' 0 (pairDists P gps).length).find?
        (fun j => decide (thr ≤ cumThrough (pairDists P gps) j))) = some b1) :
    (List.range gps.length).find?
        (fun j => decide (thr ≤ sampleCumDist P gps j)) = some (b1 + 1) := by
  have hlen : gps.length = (pairDists P gps).length + 1 := by
    rw [pairDists_length]
    have h0 : 0 < gps.length := List.length_pos_iff_ne_nil.mpr hne
    omega
  rw [hlen, List.range_succ_eq_map]
  rw [List.find?_cons_of_neg _ (by
    simp only [sampleCumDist, List.take_zero, List.sum_nil, decide_eq_true_eq]
    exact hpos)]
  rw [List.find?_map]
  show (List.find? (fun j => decide (thr ≤ cumThrough (pairDists P gps) j))
      (List.range (pairDists P gps).length)).map Nat.succ = some (b1 + 1)
  rw [← List.range_eq_range'] at hb1
  rw [hb1]
  rfl


/-- The consecutive distances of `gps31` under `P0`. -/

theorem pairDists_gps31 : pairDists P0 gps31 = List.replicate 30 1 := by
  norm_num [pairDists, P0, gps31, List.replicate]


/-- C8: **corrected**. Under the guard `len(gps) >= 30`, with a positive
total distance, the recorded boundaries are `[0, b1, b2, N - 1]` where
`b1` and `b2` are the first *distance-list* indices whose running
cumulative sum reaches `total/3` (resp. `2*total/3`, searched only after
`b1`); since the cumulative distance of sample `j + 1` is the running sum
through distance `j`, the recorded interior boundary `b1` is one *less*
than the first sample index whose cumulative distance reaches `total/3`,
which is what the specification claims is recorded. -/
theorem c8_boundaries_shifted (P : GeoPrims) (gps : List (ℚ × ℚ)) (b1 b2 : ℕ)
    (hN : ¬ gps.length < 3 * 10)
    (hpos : 0 < (pairDists P gps).sum)
    (hb1 : ((List.range' 0 (pairDists P gps).length).find?
        (fun j => decide ((pairDists P gps).sum / 3 ≤ cumThrough (pairDists P gps) j)))
      = some b1)
    (hb2 : ((List.range' (b1 + 1) ((pairDists P gps).length - (b1 + 1))).find?
        (fun j => decide ((pairDists P gps).sum / 3 * 2 ≤ cumThrough (pairDists P gps) j)))
      = some b2) :
    autoDetectSectors P gps = some [0, b1, b2, gps.length - 1] ∧
    (List.range gps.length).find?
        (fun j => decide ((pairDists P gps).sum / 3 ≤ sampleCumDist P gps j))
      = some (b1 + 1) := by
  refine ⟨autoDetectSectors_char P gps b1 b2 hN hb1 hb2, ?_⟩
  refine boundary_shift P gps b1 _ ?_ (by intro h; nlinarith) hb1
  intro h
  rw [h] at hN
  simp at hN

set_option maxHeartbeats 1000000 in
/-- Witness for C8 at the concrete 31-point lap: the code records
boundaries `[0, 9, 19, 30]`, while the first sample index with cumulative
distance `>= 10` is `10`. -/
theorem c8_boundaries_shifted_witness :
    autoDetectSectors P0 gps31 = some [0, 9, 19, 30] ∧
    (List.range gps31.length).find?
        (fun j => decide ((pairDists P0 gps31).sum / 3 ≤ sampleCumDist P0 gps31 j))
      = some 10 :=
  c8_boundaries_shifted P0 gps31 9 19
    (by norm_num [gps31])
    (by rw [pairDists_gps31]; simp [List.sum_replicate]; norm_num)
    (by rw [pairDists_gps31]; norm_num [cumThrough, List.range', List.replicate, List.find?])
    (by rw [pairDists_gps31]; norm_num [cumThrough, List.range', List.replicate, List.find?])

set_option maxHeartbeats 1000000 in
/-- Counterexample to C8 as claimed: on 31 collinear points one metre
apart the code records `[0, 9, 19, 30]`, but the first sample indices
whose cumulative distances reach `total/3` and `2*total/3` are `10` and
`20`, so the claimed boundaries are `[0, 10, 20, 30]`. -/
theorem c8_counterexample :
    autoDetectSectors P0 gps31 = some [0, 9, 19, 30] ∧
    claimedBoundaries P0 gps31 = some [0, 10, 20, 30] ∧
    autoDetectSectors P0 gps31 ≠ claimedBoundaries P0 gps31 := by
  have h1 : autoDetectSectors P0 gps31 = some [0, 9, 19, 30] :=
    autoDetectSectors_char P0 gps31 9 19
      (by norm_num [gps31])
      (by rw [pairDists_gps31]; norm_num [cumThrough, List.range', List.replicate, List.find?])
      (by rw [pairDists_gps31]; norm_num [cumThrough, List.range', List.replicate, List.find?])
  have h2 : claimedBoundaries P0 gps31 = some [0, 10, 20, 30] := by
    norm_num [claimedBoundaries, sampleCumDist, pairDists, P0, gps31, List.range_succ]
  exact ⟨h1, h2, by rw [h1, h2]; simp⟩


/-! Claim C4: per-sector time sums. -/

/-- `identify_sector` under a four-entry boundary list `[0, b1, b2, m]`:
the first interior boundary not exceeded decides the sector, the fallback
being sector `2` (the last boundary is compared but, hit or missed, also
yields `2`). -/

theorem identifySector_three (b1 b2 m i : ℕ) :
    identifySector [0, b1, b2, m] i = if i < b1 then 0 else if i < b2 then 1 else 2 := by
  simp only [identifySector, identifySectorAux, List.isEmpty_cons, List.drop_succ_cons,
    List.drop_zero, List.length_cons, List.length_nil]
  norm_num


/-- A positional filter whose predicate is a half-open index band keeps
exactly that slice of the list. -/

theorem filterByIdx_band (p : ℕ → Bool) (c1 c2 : ℕ)
    (hp : ∀ i, p i = decide (c1 ≤ i ∧ i < c2)) :
    ∀ (l : List α) (s : ℕ), filterByIdx p s l = (l.take (c2 - s)).drop (c1 - s) := by
  intro l
  induction l with
  | nil => intro s; simp [filterByIdx]
  | cons a t ih =>
    intro s
    rw [filterByIdx]
    by_cases hs2 : s < c2
    · by_cases hs1 : c1 ≤ s
      · rw [if_pos (by rw [hp]; exact decide_eq_true ⟨hs1, hs2⟩)]
        have h2 : c2 - s = (c2 - (s + 1)) + 1 := by omega
        have h1 : c1 - s = 0 := by omega
        rw [h2, h1, List.take_succ_cons, List.drop_zero]
        rw [ih (s + 1)]
        have h1' : c1 - (s + 1) = 0 := by omega
        rw [h1', List.drop_zero]
      · rw [if_neg (by rw [hp]; simp; omega)]
        have h2 : c2 - s = (c2 - (s + 1)) + 1 := by omega
        have h1 : c1 - s = (c1 - (s + 1)) + 1 := by omega
        rw [h2, h1, List.take_succ_cons, List.drop_succ_cons]
        exact ih (s + 1)
    · rw [if_neg (by rw [hp]; simp; omega)]
      have h2 : c2 - s = 0 := by omega
      have h2' : c2 - (s + 1) = 0 := by omega
      rw [ih (s + 1), h2, h2', List.take_zero, List.take_zero, List.drop_nil, List.drop_nil]


/-- A positional filter whose predicate is a lower index bound keeps the
corresponding suffix. -/

theorem filterByIdx_ge (p : ℕ → Bool) (c : ℕ)
    (hp : ∀ i, p i = decide (c ≤ i)) :
    ∀ (l : List α) (s : ℕ), filterByIdx p s l = l.drop (c - s) := by
  intro l
  induction l with
  | nil => intro s; simp [filterByIdx]
  | cons a t ih =>
    intro s
    rw [filterByIdx]
    by_cases hs : c ≤ s
    · rw [if_pos (by rw [hp]; exact decide_eq_true hs)]
      have h : c - s = 0 := by omega
      rw [h, List.drop_zero, ih (s + 1)]
      have h' : c - (s + 1) = 0 := by omega
      rw [h', List.drop_zero]
    · rw [if_neg (by rw [hp]; simp; omega)]
      have h : c - s = (c - (s + 1)) + 1 := by omega
      rw [h, List.drop_succ_cons]
      exact ih (s + 1)


/-- The first-occurrence fold ignores a run of an already-seen key. -/

theorem foldl_occ_mem (x : ℕ) (n : ℕ) :
    ∀ (acc : List ℕ), x ∈ acc →
      (List.replicate n x).foldl (fun acc s => if s ∈ acc then acc else acc ++ [s]) acc
        = acc := by
  induction n with
  | zero => intro acc _; rfl
  | succ n ih =>
    intro acc hx
    rw [List.replicate_succ, List.foldl_cons, if_pos hx]
    exact ih acc hx


/-- The first-occurrence fold appends a fresh key exactly once per run. -/

theorem foldl_occ_new (x : ℕ) (n : ℕ) (acc : List ℕ) (hx : x ∉ acc) (hn : 0 < n) :
    (List.replicate n x).foldl (fun acc s => if s ∈ acc then acc else acc ++ [s]) acc
      = acc ++ [x] := by
  obtain ⟨k, rfl⟩ : ∃ k, n = k + 1 := ⟨n - 1, by omega⟩
  rw [List.replicate_succ, List.foldl_cons, if_neg hx]
  exact foldl_occ_mem x k (acc ++ [x]) (by simp)


/-- The per-index sector ids of a lap under boundaries `[0, b1, b2, m]`
form three constant runs. -/

theorem classifier_map (b1 b2 m n : ℕ) (h1 : b1 ≤ b2) (h2 : b2 ≤ n) :
    (List.range n).map (identifySector [0, b1, b2, m])
      = List.replicate b1 0 ++ List.replicate (b2 - b1) 1 ++ List.replicate (n - b2) 2 := by
  have e1 := List.range'_append b1 (b2 - b1) (n - b2) 1
  simp only [one_mul] at e1
  rw [show b1 + (b2 - b1) = b2 from by omega] at e1
  rw [show n - b2 + (b2 - b1) = n - b1 from by omega] at e1
  have e2 := List.range'_append 0 b1 (n - b1) 1
  simp only [one_mul, Nat.zero_add] at e2
  rw [show n - b1 + b1 = n from by omega] at e2
  have hr : List.range n = List.range' 0 b1 ++ List.range' b1 (b2 - b1)
      ++ List.range' b2 (n - b2) := by
    rw [List.range_eq_range', ← e2, ← e1, List.append_assoc]
  rw [hr, List.map_append, List.map_append]
  congr 1
  · congr 1
    · apply List.eq_replicate_iff.mpr
      constructor
      · simp
      · intro b hb
        obtain ⟨j, hj, rfl⟩ := List.mem_map.mp hb
        have hj' := List.mem_range'_1.mp hj
        rw [identifySector_three]
        rw [if_pos (by omega)]
    · apply List.eq_replicate_iff.mpr
      constructor
      · simp
      · intro b hb
        obtain ⟨j, hj, rfl⟩ := List.mem_map.mp hb
        have hj' := List.mem_range'_1.mp hj
        rw [identifySector_three]
        rw [if_neg (by omega), if_pos (by omega)]
  · apply List.eq_replicate_iff.mpr
    constructor
    · simp
    · intro b hb
      obtain ⟨j, hj, rfl⟩ := List.mem_map.mp hb
      have hj' := List.mem_range'_1.mp hj
      rw [identifySector_three]
      rw [if_neg (by omega), if_neg (by omega)]


/-- With at least one index in each sector, the `defaultdict` key order of
the sector grouping is `[0, 1, 2]`. -/

theorem firstOccs_three (b1 b2 m n : ℕ) (h1 : 0 < b1) (h2 : b1 < b2) (h3 : b2 < n) :
    firstOccs ((List.range n).map (identifySector [0, b1, b2, m])) = [0, 1, 2] := by
  rw [classifier_map b1 b2 m n (by omega) (by omega)]
  rw [firstOccs, List.foldl_append, List.foldl_append]
  rw [foldl_occ_new 0 b1 [] (by simp) h1]
  simp only [List.nil_append]
  rw [foldl_occ_new 1 (b2 - b1) [0] (by simp) (by omega)]
  simp only [List.cons_append, List.nil_append]
  rw [foldl_occ_new 2 (n - b2) [0, 1] (by simp) (by omega)]
  rfl


/-- The points of sector `0` are the first `b1` samples. -/

theorem sectorPoints_zero (b1 b2 m : ℕ) (l : List Sample) :
    sectorPoints [0, b1, b2, m] l 0 = l.take b1 := by
  rw [sectorPoints]
  rw [filterByIdx_band _ 0 b1 (fun i => by
    rw [identifySector_three]
    rcases Nat.lt_or_ge i b1 with hi | hi
    · rw [if_pos hi]
      simp only [decide_eq_decide, true_iff, false_iff]
      omega
    · rw [if_neg (by omega)]
      rcases Nat.lt_or_ge i b2 with hi2 | hi2
      · rw [if_pos hi2]
        simp only [decide_eq_decide, true_iff, false_iff]
        omega
      · rw [if_neg (by omega)]
        simp only [decide_eq_decide, true_iff, false_iff]
        omega)]
  simp


/-- The points of sector `1` are the samples at indices `[b1, b2)`. -/

theorem sectorPoints_one (b1 b2 m : ℕ) (l : List Sample) :
    sectorPoints [0, b1, b2, m] l 1 = (l.take b2).drop b1 := by
  rw [sectorPoints]
  rw [filterByIdx_band _ b1 b2 (fun i => by
    rw [identifySector_three]
    rcases Nat.lt_or_ge i b1 with hi | hi
    · rw [if_pos hi]
      simp only [decide_eq_decide, true_iff, false_iff]
      omega
    · rw [if_neg (by omega)]
      rcases Nat.lt_or_ge i b2 with hi2 | hi2
      · rw [if_pos hi2]
        simp only [decide_eq_decide, true_iff, false_iff]
        omega
      · rw [if_neg (by omega)]
        simp only [decide_eq_decide, true_iff, false_iff]
        omega)]
  simp


/-- The points of sector `2` are the samples from index `b2` on. -/

theorem sectorPoints_two (b1 b2 m : ℕ) (l : List Sample) (h2 : b1 ≤ b2) :
    sectorPoints [0, b1, b2, m] l 2 = l.drop b2 := by
  rw [sectorPoints]
  rw [filterByIdx_ge _ b2 (fun i => by
    rw [identifySector_three]
    rcases Nat.lt_or_ge i b1 with hi | hi
    · rw [if_pos hi]
      simp only [decide_eq_decide, true_iff, false_iff]
      omega
    · rw [if_neg (by omega)]
      rcases Nat.lt_or_ge i b2 with hi2 | hi2
      · rw [if_pos hi2]
        simp only [decide_eq_decide, true_iff, false_iff]
        omega
      · rw [if_neg (by omega)]
        simp only [decide_eq_decide, true_iff, false_iff]
        omega)]
  simp


/-- The `sector_times` mapping under boundaries `[0, b1, b2, m]` with at
least two samples in every sector: the three contiguous slices,
summarised in key order. -/

theorem sectorTimes_three (b1 b2 m : ℕ) (l : List Sample)
    (h1 : 2 ≤ b1) (h2 : b1 + 2 ≤ b2) (h3 : b2 + 2 ≤ l.length) :
    sectorTimes [0, b1, b2, m] l =
      [(0, mkSectorData (l.take b1)),
       (1, mkSectorData ((l.take b2).drop b1)),
       (2, mkSectorData (l.drop b2))] := by
  rw [sectorTimes]
  rw [firstOccs_three b1 b2 m l.length (by omega) (by omega) (by omega)]
  rw [List.filterMap_cons, List.filterMap_cons, List.filterMap_cons, List.filterMap_nil]
  rw [sectorPoints_zero b1 b2 m l]
  rw [sectorPoints_one b1 b2 m l]
  rw [sectorPoints_two b1 b2 m l (by omega)]
  have hl0 : (l.take b1).length = b1 := by
    rw [List.length_take]
    omega
  have hl1 : ((l.take b2).drop b1).length = b2 - b1 := by
    rw [List.length_drop, List.length_take]
    omega
  have hl2 : (l.drop b2).length = l.length - b2 := by
    rw [List.length_drop]
  rw [if_pos (by rw [hl0]; omega), if_pos (by rw [hl1]; omega), if_pos (by rw [hl2]; omega)]


/-- Reading inside the taken prefix. -/

theorem getD_take' [Inhabited α] (l : List α) (n i : ℕ) (h : i < n) :
    (l.take n).getD i default = l.getD i default := by
  rw [List.getD_eq_getElem?_getD, List.getD_eq_getElem?_getD, List.getElem?_take, if_pos h]


/-- Reading a dropped suffix shifts the index. -/

theorem getD_drop' [Inhabited α] (l : List α) (n i : ℕ) :
    (l.drop n).getD i default = l.getD (n + i) default := by
  rw [List.getD_eq_getElem?_getD, List.getD_eq_getElem?_getD, List.getElem?_drop]


/-- `headI` of a non-empty list as a positional read. -/

theorem headI_eq_getD [Inhabited α] (l : List α) (h : l ≠ []) :
    l.headI = l.getD 0 default := by
  cases l with
  | nil => exact absurd rfl h
  | cons a t => rfl


/-- `getLastI` of a non-empty list as a positional read. -/

theorem getLastI_eq_getD [Inhabited α] (l : List α) (h : l ≠ []) :
    l.getLastI = l.getD (l.length - 1) default := by
  rw [List.getLastI_eq_getLast?, List.getLast?_eq_getElem?, List.getD_eq_getElem?_getD]
  have hlt : l.length - 1 < l.length := by
    cases l with
    | nil => exact absurd rfl h
    | cons a t => simp
  rw [List.getElem?_eq_getElem hlt]
  rfl


/-- The sum of the per-sector times: each sector spans its own first to
last sample, so the two inter-sector gaps `t(b1) - t(b1 - 1)` and
`t(b2) - t(b2 - 1)` of the lap's span are missing from the sum. -/

theorem sectorTimes_sum (b1 b2 m : ℕ) (l : List Sample)
    (h1 : 2 ≤ b1) (h2 : b1 + 2 ≤ b2) (h3 : b2 + 2 ≤ l.length) :
    ((sectorTimes [0, b1, b2, m] l).map (fun p => p.2.time)).sum
      = (l.getLastI.timestamp - l.headI.timestamp)
        - ((l.getD b1 default).timestamp - (l.getD (b1 - 1) default).timestamp)
        - ((l.getD b2 default).timestamp - (l.getD (b2 - 1) default).timestamp) := by
  rw [sectorTimes_three b1 b2 m l h1 h2 h3]
  simp only [List.map_cons, List.map_nil, List.sum_cons, List.sum_nil, mkSectorData]
  have hne : l ≠ [] := by
    intro h
    rw [h] at h3
    simp at h3
  have g0ne : l.take b1 ≠ [] := by
    apply List.ne_nil_of_length_pos
    rw [List.length_take]
    omega
  have g1ne : (l.take b2).drop b1 ≠ [] := by
    apply List.ne_nil_of_length_pos
    rw [List.length_drop, List.length_take]
    omega
  have g2ne : l.drop b2 ≠ [] := by
    apply List.ne_nil_of_length_pos
    rw [List.length_drop]
    omega
  have g0h : (l.take b1).headI = l.headI := by
    rw [headI_eq_getD _ g0ne, headI_eq_getD _ hne, getD_take' _ _ _ (by omega)]
  have g0l : (l.take b1).getLastI = l.getD (b1 - 1) default := by
    rw [getLastI_eq_getD _ g0ne, List.length_take]
    rw [show min b1 l.length - 1 = b1 - 1 from by omega]
    rw [getD_take' _ _ _ (by omega)]
  have g1h : ((l.take b2).drop b1).headI = l.getD b1 default := by
    rw [headI_eq_getD _ g1ne, getD_drop', Nat.add_zero, getD_take' _ _ _ (by omega)]
  have g1l : ((l.take b2).drop b1).getLastI = l.getD (b2 - 1) default := by
    rw [getLastI_eq_getD _ g1ne, List.length_drop, List.length_take, getD_drop']
    rw [show b1 + (min b2 l.length - b1 - 1) = b2 - 1 from by omega]
    rw [getD_take' _ _ _ (by omega)]
  have g2h : (l.drop b2).headI = l.getD b2 default := by
    rw [headI_eq_getD _ g2ne, getD_drop', Nat.add_zero]
  have g2l : (l.drop b2).getLastI = l.getLastI := by
    rw [getLastI_eq_getD _ g2ne, getLastI_eq_getD _ hne, List.length_drop, getD_drop']
    congr 2
    omega
  rw [g0h, g0l, g1h, g1l, g2h, g2l]
  ring


/-- A 12-sample lap with timestamps `0..11` (one second apart). -/

def lap12 : List Sample :=
  [{ timestamp := 0, lat := 0, lon := 0, speed := 10 },
   { timestamp := 1, lat := 0, lon := 0, speed := 10 },
   { timestamp := 2, lat := 0, lon := 0, speed := 10 },
   { timestamp := 3, lat := 0, lon := 0, speed := 10 },
   { timestamp := 4, lat := 0, lon := 0, speed := 10 },
   { timestamp := 5, lat := 0, lon := 0, speed := 10 },
   { timestamp := 6, lat := 0, lon := 0, speed := 10 },
   { timestamp := 7, lat := 0, lon := 0, speed := 10 },
   { timestamp := 8, lat := 0, lon := 0, speed := 10 },
   { timestamp := 9, lat := 0, lon := 0, speed := 10 },
   { timestamp := 10, lat := 0, lon := 0, speed := 10 },
   { timestamp := 11, lat := 0, lon := 0, speed := 10 }]


/-- An engine with the fixed sector boundaries `[0, 3, 6, 11]`. -/
def engB : Engine := { emptyEngine with sector_boundaries := [0, 3, 6, 11] }

/-- C4: **corrected**.  For a lap produced by `process_lap` under
boundaries `[0, b1, b2, m]` with at least two samples per sector and
nondecreasing timestamps, the sum of the per-sector times is not
`total_time` but `total_time` minus the two inter-sector gaps
`t(b1) - t(b1 - 1)` and `t(b2) - t(b2 - 1)` (each sector spans its own
first to last sample, so the time between consecutive sectors is counted
by no sector); the sum is therefore only bounded by `total_time`, with
equality exactly when the dropped gaps vanish. -/
theorem c4_sector_sum_drops_boundary_gaps (P : GeoPrims) (eng : Engine)
    (l : List Sample) (b1 b2 m : ℕ)
    (hb : eng.sector_boundaries = [0, b1, b2, m])
    (h1 : 2 ≤ b1) (h2 : b1 + 2 ≤ b2) (h3 : b2 + 2 ≤ l.length)
    (hlen : ¬ l.length < 10)
    (hmono : l.Pairwise (fun a b => a.timestamp ≤ b.timestamp)) :
    ∃ lap eng', processLap P eng l = (some lap, eng') ∧
      (lap.sectors.map (fun p => p.2.time)).sum
        = lap.total_time
          - ((l.getD b1 default).timestamp - (l.getD (b1 - 1) default).timestamp)
          - ((l.getD b2 default).timestamp - (l.getD (b2 - 1) default).timestamp) ∧
      (lap.sectors.map (fun p => p.2.time)).sum ≤ lap.total_time := by
  obtain ⟨lap, eng', hpl, hnum, htot, hsec, hrest⟩ := processLap_char P eng l hlen
  have hba : boundariesAfter P eng (l.map (fun d => (d.lat, d.lon))) = [0, b1, b2, m] := by
    rw [boundariesAfter, hb]
    simp
  rw [hba] at hsec
  have hsum := sectorTimes_sum b1 b2 m l h1 h2 h3
  have hg1 : (l.getD (b1 - 1) default).timestamp ≤ (l.getD b1 default).timestamp := by
    rw [List.getD_eq_getElem l default (show b1 - 1 < l.length from by omega),
        List.getD_eq_getElem l default (show b1 < l.length from by omega)]
    exact List.pairwise_iff_getElem.mp hmono (b1 - 1) b1 (by omega) (by omega) (by omega)
  have hg2 : (l.getD (b2 - 1) default).timestamp ≤ (l.getD b2 default).timestamp := by
    rw [List.getD_eq_getElem l default (show b2 - 1 < l.length from by omega),
        List.getD_eq_getElem l default (show b2 < l.length from by omega)]
    exact List.pairwise_iff_getElem.mp hmono (b2 - 1) b2 (by omega) (by omega) (by omega)
  refine ⟨lap, eng', hpl, ?_, ?_⟩
  · rw [hsec, htot, hsum]
  · rw [hsec, htot, hsum]
    linarith

/-- Witness for C4 at the 12-sample lap and boundaries `[0, 3, 6, 11]`. -/
theorem c4_sector_sum_drops_boundary_gaps_witness :
    ∃ lap eng', processLap P0 engB lap12 = (some lap, eng') ∧
      (lap.sectors.map (fun p => p.2.time)).sum
        = lap.total_time
          - ((lap12.getD 3 default).timestamp - (lap12.getD 2 default).timestamp)
          - ((lap12.getD 6 default).timestamp - (lap12.getD 5 default).timestamp) ∧
      (lap.sectors.map (fun p => p.2.time)).sum ≤ lap.total_time :=
  c4_sector_sum_drops_boundary_gaps P0 engB lap12 3 6 11 rfl
    (by norm_num) (by norm_num) (by norm_num [lap12]) (by norm_num [lap12])
    (by simp [lap12, List.pairwise_cons]; norm_num)

/-- Counterexample to C4 as claimed: under boundaries `[0, 3, 6, 11]` the
12-sample lap with timestamps `0..11` yields sector times `2`, `2` and
`5`, summing to `9`, while `total_time` is `11`: the two one-second gaps
between consecutive sectors are counted by no sector. -/
theorem c4_counterexample :
    ∃ lap eng', processLap P0 engB lap12 = (some lap, eng') ∧
      (lap.sectors.map (fun p => p.2.time)).sum = 9 ∧
      lap.total_time = 11 ∧
      (lap.sectors.map (fun p => p.2.time)).sum ≠ lap.total_time := by
  obtain ⟨lap, eng', hpl, hnum, htot, hsec, hrest⟩ :=
    processLap_char P0 engB lap12 (by norm_num [lap12])
  have hba : boundariesAfter P0 engB (lap12.map (fun d => (d.lat, d.lon)))
      = [0, 3, 6, 11] := by
    rw [boundariesAfter]
    simp [engB]
  rw [hba] at hsec
  have hs9 : (lap.sectors.map (fun p => p.2.time)).sum = 9 := by
    rw [hsec]
    rw [sectorTimes_sum 3 6 11 lap12 (by norm_num) (by norm_num) (by norm_num [lap12])]
    norm_num [lap12, List.getD, List.getLastI]
  have ht11 : lap.total_time = 11 := by
    rw [htot]
    norm_num [lap12, List.getLastI]
  exact ⟨lap, eng', hpl, hs9, ht11, by rw [hs9, ht11]; norm_num⟩

end Racing
